import Mathlib

/-!
# Verification of the Erebus cognitive core

Shallow embedding of the OpenCog-inspired cognitive runtime of the Erebus
repository (Go sources: `backend/internal/cognitive/...`): the atom data
model, content-addressed ids (SHA-256), the FNV-1a shard routing, the
in-memory AtomSpace with its four indices, the shard manager, the
inference engine with its three default rules, the agent scheduler's
priority sort and the attention agent.

Modelling conventions:
* Go `float64` truth values are modelled as exact rationals (`ℚ`); every
  float literal is read as the rational its decimal text denotes.  The
  operations the claims touch are products of such literals, where this
  idealisation is exact (see the comment at `decaySTI` for the one place
  where rounding of `0.95` was checked by hand).
* Go `int16` attention fields are modelled as `Int`, with wrapping
  (`wrap16`) applied where Go's `int16` arithmetic wraps.
* Go maps iterate in an unspecified order; the embedding fixes the
  deterministic best case, insertion order (association lists).  Channels,
  worker pools and locks are elided: the model is the sequential semantics
  in which rule results are consumed in dispatch order, which is the
  deterministic execution singled out by the specification itself.
* Wall-clock fields (`CreatedAt`, `UpdatedAt`, shard `LastUsed`) and the
  shard `Load` counter are not observable by any claim and are omitted.
* Strings are ASCII in every scenario; `strBytes` maps a string to its
  UTF-8 bytes under that assumption.
-/

namespace Erebus

/-! ## Truth values, attention values, atom types (atomspace/interface.go) -/

/-- `TruthValue`: strength/confidence pair; Go `float64` fields modelled
as exact rationals. -/
structure TruthValue where
  strength : ℚ
  confidence : ℚ
deriving DecidableEq, Repr

/-- `AttentionValue`: short/long/very-long-term importance; Go `int16`
fields modelled as `Int`. -/
structure AttentionValue where
  sti : Int
  lti : Int
  vlti : Int
deriving DecidableEq, Repr

/-- The nine atom type constants of `atomspace.AtomType` (Go iota order). -/
inductive AtomType where
  | node
  | conceptNode
  | predicateNode
  | variableNode
  | link
  | inheritanceLink
  | similarityLink
  | executionLink
  | evaluationLink
deriving DecidableEq, Repr

/-- Numeric value of each `AtomType` constant (Go iota). -/
def AtomType.toNat : AtomType → Nat
  | .node => 0
  | .conceptNode => 1
  | .predicateNode => 2
  | .variableNode => 3
  | .link => 4
  | .inheritanceLink => 5
  | .similarityLink => 6
  | .executionLink => 7
  | .evaluationLink => 8

/-- The shared header of `BaseAtom` (id, type, name, truth, attention,
tenant).  `CreatedAt`/`UpdatedAt` timestamps are omitted (no claim
observes them). -/
structure AtomData where
  id : String
  atomType : AtomType
  name : String
  truthVal : TruthValue
  attentionVal : AttentionValue
  tenantID : String
deriving DecidableEq, Repr

/-- `Atom`: Go interface with `Node` and `Link` implementations.  A link
carries the ordered `Outgoing` atoms. -/
inductive Atom where
  | node (base : AtomData)
  | link (base : AtomData) (outgoing : List Atom)

mutual

/-- Decidable equality of atoms (manual: the inductive is nested). -/
def Atom.decEq : (a b : Atom) → Decidable (a = b)
  | .node x, .node y =>
    if h : x = y then .isTrue (by rw [h])
    else .isFalse (by intro hh; cases hh; exact h rfl)
  | .node _, .link _ _ => .isFalse (by intro h; cases h)
  | .link _ _, .node _ => .isFalse (by intro h; cases h)
  | .link x xs, .link y ys =>
    if h : x = y then
      match Atom.decEqList xs ys with
      | .isTrue h2 => .isTrue (by rw [h, h2])
      | .isFalse h2 => .isFalse (by intro hh; cases hh; exact h2 rfl)
    else .isFalse (by intro hh; cases hh; exact h rfl)

/-- Decidable equality of atom lists. -/
def Atom.decEqList : (as bs : List Atom) → Decidable (as = bs)
  | [], [] => .isTrue rfl
  | [], _ :: _ => .isFalse (by intro h; cases h)
  | _ :: _, [] => .isFalse (by intro h; cases h)
  | a :: as, b :: bs =>
    match Atom.decEq a b, Atom.decEqList as bs with
    | .isTrue h1, .isTrue h2 => .isTrue (by rw [h1, h2])
    | .isFalse h1, _ => .isFalse (by intro hh; cases hh; exact h1 rfl)
    | _, .isFalse h2 => .isFalse (by intro hh; cases hh; exact h2 rfl)

end

instance : DecidableEq Atom := Atom.decEq

/-- Decidable equality for `Except` results (not provided by core). -/
def exceptDecEq {ε α : Type} [DecidableEq ε] [DecidableEq α] :
    (u v : Except ε α) → Decidable (u = v)
  | .error x, .error y =>
    if h : x = y then .isTrue (congrArg Except.error h)
    else .isFalse (fun hh => h (Except.error.inj hh))
  | .ok x, .ok y =>
    if h : x = y then .isTrue (congrArg Except.ok h)
    else .isFalse (fun hh => h (Except.ok.inj hh))
  | .error _, .ok _ => .isFalse (fun hh => Except.noConfusion hh)
  | .ok _, .error _ => .isFalse (fun hh => Except.noConfusion hh)

instance {ε α : Type} [DecidableEq ε] [DecidableEq α] :
    DecidableEq (Except ε α) := exceptDecEq

/-- The `BaseAtom` header of an atom. -/
def Atom.base : Atom → AtomData
  | .node b => b
  | .link b _ => b

def Atom.getID (a : Atom) : String := a.base.id

def Atom.getType (a : Atom) : AtomType := a.base.atomType

def Atom.getName (a : Atom) : String := a.base.name

def Atom.getTruthValue (a : Atom) : TruthValue := a.base.truthVal

def Atom.getAttentionValue (a : Atom) : AttentionValue := a.base.attentionVal

def Atom.getTenantID (a : Atom) : String := a.base.tenantID

/-- `Outgoing` of a link; a node has none. -/
def Atom.outgoing : Atom → List Atom
  | .node _ => []
  | .link _ o => o

/-- `BaseAtom.SetTruthValue`: stores the given pair verbatim (the Go code
performs no range validation). -/
def Atom.setTruthValue : Atom → TruthValue → Atom
  | .node b, tv => .node { b with truthVal := tv }
  | .link b o, tv => .link { b with truthVal := tv } o

/-- `BaseAtom.SetAttentionValue`: stores the given triple verbatim. -/
def Atom.setAttentionValue : Atom → AttentionValue → Atom
  | .node b, av => .node { b with attentionVal := av }
  | .link b o, av => .link { b with attentionVal := av } o

/-- `NewNode`: default truth `(1,1)`, attention all zero. -/
def newNode (id name tenantID : String) (atomType : AtomType) : Atom :=
  .node ⟨id, atomType, name, ⟨1, 1⟩, ⟨0, 0, 0⟩, tenantID⟩

/-- `NewLink`: default truth `(1,1)`, attention all zero. -/
def newLink (id name tenantID : String) (atomType : AtomType)
    (outgoing : List Atom) : Atom :=
  .link ⟨id, atomType, name, ⟨1, 1⟩, ⟨0, 0, 0⟩, tenantID⟩ outgoing

/-! ## SHA-256 (crypto/sha256, as used by `GenerateAtomID`)

A direct executable implementation of FIPS 180-4 SHA-256 over byte lists,
with 32-bit words as `Nat` reduced mod `2^32`. -/

def w32 (n : Nat) : Nat := n % 4294967296

/-- Right rotation of a 32-bit word. -/
def rotr (k n : Nat) : Nat := w32 ((n >>> k) ||| (n <<< (32 - k)))

def shaCh (x y z : Nat) : Nat := (x &&& y) ^^^ ((x ^^^ 4294967295) &&& z)

def shaMaj (x y z : Nat) : Nat :=
  (x &&& y) ^^^ (x &&& z) ^^^ (y &&& z)

def bigSigma0 (x : Nat) : Nat := rotr 2 x ^^^ rotr 13 x ^^^ rotr 22 x

def bigSigma1 (x : Nat) : Nat := rotr 6 x ^^^ rotr 11 x ^^^ rotr 25 x

def smallSigma0 (x : Nat) : Nat := rotr 7 x ^^^ rotr 18 x ^^^ (x >>> 3)

def smallSigma1 (x : Nat) : Nat := rotr 17 x ^^^ rotr 19 x ^^^ (x >>> 10)

/-- The 64 SHA-256 round constants (FIPS 180-4, in decimal). -/
def shaK : List Nat :=
  [1116352408, 1899447441, 3049323471,
   3921009573, 961987163, 1508970993,
   2453635748, 2870763221, 3624381080,
   310598401, 607225278, 1426881987,
   1925078388, 2162078206, 2614888103,
   3248222580, 3835390401, 4022224774,
   264347078, 604807628, 770255983,
   1249150122, 1555081692, 1996064986,
   2554220882, 2821834349, 2952996808,
   3210313671, 3336571891, 3584528711,
   113926993, 338241895, 666307205,
   773529912, 1294757372, 1396182291,
   1695183700, 1986661051, 2177026350,
   2456956037, 2730485921, 2820302411,
   3259730800, 3345764771, 3516065817,
   3600352804, 4094571909, 275423344,
   430227734, 506948616, 659060556,
   883997877, 958139571, 1322822218,
   1537002063, 1747873779, 1955562222,
   2024104815, 2227730452, 2361852424,
   2428436474, 2756734187, 3204031479,
   3329325298]

/-- The initial SHA-256 hash state (in decimal). -/
def shaH0 : List Nat :=
  [1779033703, 3144134277, 1013904242,
   2773480762, 1359893119, 2600822924,
   528734635, 1541459225]

/-- Big-endian byte expansion of `n` into `k` bytes. -/
def beBytes (k n : Nat) : List Nat :=
  (List.range k).map (fun i => (n >>> (8 * (k - 1 - i))) &&& 255)

/-- SHA-256 padding: append `0x80`, zero bytes up to 56 mod 64, and the
64-bit big-endian bit length. -/
def sha256pad (msg : List Nat) : List Nat :=
  let padZeros := (119 - msg.length % 64) % 64
  msg ++ [128] ++ List.replicate padZeros 0 ++ beBytes 8 (8 * msg.length)

/-- The 16 big-endian message words of one 64-byte block. -/
def blockWords (block : List Nat) : List Nat :=
  (List.range 16).map (fun i =>
    (block.getD (4 * i) 0) <<< 24 ||| (block.getD (4 * i + 1) 0) <<< 16 |||
    (block.getD (4 * i + 2) 0) <<< 8 ||| block.getD (4 * i + 3) 0)

/-- Message-schedule extension of the 16 words to 64. -/
def extendWords (w : List Nat) : List Nat :=
  (List.range 48).foldl
    (fun w i =>
      w ++ [w32 (smallSigma1 (w.getD (i + 14) 0) + w.getD (i + 9) 0 +
                 smallSigma0 (w.getD (i + 1) 0) + w.getD i 0)])
    w

/-- One SHA-256 compression round. -/
def shaRound (w : List Nat) (st : List Nat) (t : Nat) : List Nat :=
  let a := st.getD 0 0
  let b := st.getD 1 0
  let c := st.getD 2 0
  let d := st.getD 3 0
  let e := st.getD 4 0
  let f := st.getD 5 0
  let g := st.getD 6 0
  let h := st.getD 7 0
  let t1 := w32 (h + bigSigma1 e + shaCh e f g + shaK.getD t 0 + w.getD t 0)
  let t2 := w32 (bigSigma0 a + shaMaj a b c)
  [w32 (t1 + t2), a, b, c, w32 (d + t1), e, f, g]

/-- SHA-256 compression of one 64-byte block into the running state. -/
def shaCompress (h : List Nat) (block : List Nat) : List Nat :=
  let w := extendWords (blockWords block)
  let final := (List.range 64).foldl (shaRound w) h
  List.zipWith (fun x y => w32 (x + y)) h final

/-- SHA-256 digest (32 bytes) of a byte list. -/
def sha256 (msg : List Nat) : List Nat :=
  let padded := sha256pad msg
  let blocks := (List.range (padded.length / 64)).map
    (fun i => (padded.drop (64 * i)).take 64)
  (blocks.foldl shaCompress shaH0).flatMap (beBytes 4)

/-- Lowercase hex digit. -/
def hexDigit (n : Nat) : Char := Char.ofNat (if n < 10 then 48 + n else 87 + n)

/-- Go's `fmt.Sprintf("%x", bytes)`: lowercase hex, two digits per byte. -/
def hexOfBytes (bs : List Nat) : String :=
  String.mk (bs.flatMap (fun b => [hexDigit (b / 16), hexDigit (b % 16)]))

/-- UTF-8 bytes of a string; exact for the ASCII strings used here. -/
def strBytes (s : String) : List Nat := s.data.map Char.toNat

/-- `GenerateAtomID` (atomspace.go): SHA-256 over `"%d:%s"` of the type
and name followed by the outgoing atoms' ids, rendered as lowercase hex. -/
def generateAtomID (atomType : AtomType) (name : String)
    (outgoing : List Atom) : String :=
  hexOfBytes (sha256 (strBytes (toString atomType.toNat ++ ":" ++ name) ++
    (outgoing.flatMap (fun a => strBytes a.getID))))

/-! ## FNV-1a 64 and shard routing (sharding.go) -/

/-- `hash/fnv` 64-bit FNV-1a over a byte list. -/
def fnv1a64 (bs : List Nat) : Nat :=
  bs.foldl (fun h b => ((h ^^^ b) * 1099511628211) % 18446744073709551616)
    14695981039346656037

/-! ## AtomSpace (atomspace.go)

The Go store keeps four maps: `atoms` (id → atom), `byTenant`
(tenant → id → atom), `byType` (type → id → atom) and `indices`
(name → id → bool).  The three secondary maps hold pointers to the very
objects stored in `atoms`; the embedding therefore keeps atom values only
in `atoms` and records the secondary maps as id buckets.  Go map
iteration order is unspecified; association lists in insertion order fix
the deterministic case. -/

/-- The error values produced by the store (Go returns `fmt.Errorf`
strings; the model keeps their identity as kinds). -/
inductive StoreError where
  | alreadyExists (atomID : String)
  | notFound (atomID : String)
  | tenantMismatch (tenantID : String)
deriving DecidableEq, Repr

/-- The possible results of `UpdateAtom`: the two lookup failures, or an
error returned by the caller's updater (whose mutations persist). -/
inductive UpdateError where
  | notFound (atomID : String)
  | tenantMismatch (tenantID : String)
  | updaterFailed (msg : String)
deriving DecidableEq, Repr

/-- Association-list lookup (the Go map read `m[k]`). -/
def lookupEntry {κ β : Type} [DecidableEq κ] : List (κ × β) → κ → Option β
  | [], _ => none
  | (k, v) :: rest, key => if k = key then some v else lookupEntry rest key

/-- Append `v` to the bucket of key `k`, creating the bucket if absent
(Go: `if m[k] == nil { m[k] = make(...) }; m[k][v] = ...`). -/
def addToBucket {κ β : Type} [DecidableEq κ] :
    List (κ × List β) → κ → β → List (κ × List β)
  | [], k, v => [(k, [v])]
  | (k', l) :: rest, k, v =>
    if k' = k then (k', l ++ [v]) :: rest else (k', l) :: addToBucket rest k v

/-- Association-list update of the entry with key `k` (mirrors mutating
the object stored under `k` in the Go map). -/
def setEntry (l : List (String × Atom)) (k : String) (v : Atom) :
    List (String × Atom) :=
  l.map (fun p => if p.1 = k then (k, v) else p)

/-- One `AtomSpace` shard: the primary map and the three index maps. -/
structure AtomSpace where
  atoms : List (String × Atom)
  byTenant : List (String × List String)
  byType : List (AtomType × List String)
  indices : List (String × List String)
deriving DecidableEq

/-- `NewAtomSpace`: all maps empty. -/
def newAtomSpace : AtomSpace := ⟨[], [], [], []⟩

/-- `addAtomInternal`: fail on id collision, otherwise insert into the
primary map and all three indices. -/
def addAtomInternal (as : AtomSpace) (atom : Atom) :
    Except StoreError AtomSpace :=
  if (lookupEntry as.atoms atom.getID).isSome then
    .error (.alreadyExists atom.getID)
  else
    .ok { atoms := as.atoms ++ [(atom.getID, atom)],
          byTenant := addToBucket as.byTenant atom.getTenantID atom.getID,
          byType := addToBucket as.byType atom.getType atom.getID,
          indices := addToBucket as.indices atom.getName atom.getID }

/-- `AtomSpace.GetAtom`: lookup by id, then verify the tenant. -/
def getAtom (as : AtomSpace) (atomID tenantID : String) :
    Except StoreError Atom :=
  match lookupEntry as.atoms atomID with
  | none => .error (.notFound atomID)
  | some atom =>
    if atom.getTenantID = tenantID then .ok atom
    else .error (.tenantMismatch tenantID)

/-- `queryAtomsInternal`: all atoms of the tenant bucket passing the
optional filter.  (In Go the bucket maps ids to the stored objects, so
the `lookup` never misses; `filterMap` keeps the model total.) -/
def queryAtomsInternal (as : AtomSpace) (tenantID : String)
    (filter : Option (Atom → Bool)) : List Atom :=
  ((lookupEntry as.byTenant tenantID).getD []).filterMap (fun atomID =>
    match lookupEntry as.atoms atomID with
    | some atom =>
      match filter with
      | none => some atom
      | some f => if f atom then some atom else none
    | none => none)

/-- `updateAtomInternal`: lookup, verify tenant, then run the updater.
The updater mutates the atom in place in Go; here it returns the mutated
atom together with its optional error, and the mutation persists even
when the updater errors. -/
def updateAtomInternal (as : AtomSpace) (atomID tenantID : String)
    (updater : Atom → Option String × Atom) :
    Option UpdateError × AtomSpace :=
  match lookupEntry as.atoms atomID with
  | none => (some (.notFound atomID), as)
  | some atom =>
    if atom.getTenantID = tenantID then
      ((updater atom).1.map .updaterFailed,
        { as with atoms := setEntry as.atoms atomID (updater atom).2 })
    else (some (.tenantMismatch tenantID), as)

/-- Direct object mutation `atom.SetAttentionValue(av)` as seen through
the store: the entry of that id (the shared object) gets the new
attention value. -/
def setAttentionValueByID (as : AtomSpace) (atomID : String)
    (av : AttentionValue) : AtomSpace :=
  { as with atoms := as.atoms.map (fun p =>
      if p.1 = atomID then (p.1, p.2.setAttentionValue av) else p) }

/-! ## Shard manager (sharding.go) -/

/-- `ShardManager`: the shard array and the configured shard count.
(`Load`/`LastUsed` tracking and the advisory rebalance monitor are not
observable by any claim and are omitted.) -/
structure ShardManager where
  shards : List AtomSpace
  numShards : Nat
deriving DecidableEq

/-- `NewShardManager`: `numShards` empty shards. -/
def newShardManager (numShards : Nat) : ShardManager :=
  ⟨List.replicate numShards newAtomSpace, numShards⟩

/-- `getShardIDInternal`: FNV-1a of `tenantID ++ ":" ++ atomID` modulo
the shard count. -/
def getShardIDInternal (sm : ShardManager) (atomID tenantID : String) : Nat :=
  fnv1a64 (strBytes (tenantID ++ ":" ++ atomID)) % sm.numShards

/-- The shard an atom routes to. -/
def shardOf (sm : ShardManager) (atomID tenantID : String) : AtomSpace :=
  sm.shards.getD (getShardIDInternal sm atomID tenantID) newAtomSpace

/-- Replace the shard an atom routes to. -/
def setShardOf (sm : ShardManager) (atomID tenantID : String)
    (s : AtomSpace) : ShardManager :=
  { sm with shards := sm.shards.set (getShardIDInternal sm atomID tenantID) s }

/-- `ShardManager.AddAtom`: route by the atom's id and tenant, insert into
that shard. -/
def smAddAtom (sm : ShardManager) (atom : Atom) :
    Except StoreError ShardManager :=
  match addAtomInternal (shardOf sm atom.getID atom.getTenantID) atom with
  | .error e => .error e
  | .ok s => .ok (setShardOf sm atom.getID atom.getTenantID s)

/-- `ShardManager.GetAtom`: route, then `AtomSpace.GetAtom` on that shard. -/
def smGetAtom (sm : ShardManager) (atomID tenantID : String) :
    Except StoreError Atom :=
  getAtom (shardOf sm atomID tenantID) atomID tenantID

/-- `ShardManager.QueryAtoms`: query every shard and concatenate (the Go
code collects the parallel per-shard results; shard-index order is the
deterministic rendering). -/
def smQueryAtoms (sm : ShardManager) (tenantID : String)
    (filter : Option (Atom → Bool)) : List Atom :=
  sm.shards.flatMap (fun s => queryAtomsInternal s tenantID filter)

/-- `ShardManager.UpdateAtom`: route, then update on that shard. -/
def smUpdateAtom (sm : ShardManager) (atomID tenantID : String)
    (updater : Atom → Option String × Atom) :
    Option UpdateError × ShardManager :=
  let (err, s) := updateAtomInternal (shardOf sm atomID tenantID)
    atomID tenantID updater
  (err, setShardOf sm atomID tenantID s)

/-- Object mutation `atom.SetAttentionValue(av)` through the manager: the
object lives in the shard its id and own tenant route to. -/
def smSetAttentionValue (sm : ShardManager) (atomID tenantID : String)
    (av : AttentionValue) : ShardManager :=
  setShardOf sm atomID tenantID
    (setAttentionValueByID (shardOf sm atomID tenantID) atomID av)

/-- `CognitiveEngine.CreateConceptNode`: content address, build, insert. -/
def createConceptNode (sm : ShardManager) (name tenantID : String) :
    Except StoreError (Atom × ShardManager) := do
  let atomID := generateAtomID .conceptNode name []
  let node := newNode atomID name tenantID .conceptNode
  let sm' ← smAddAtom sm node
  return (node, sm')

/-- `CognitiveEngine.CreateInheritanceLink`: fetch both endpoints, build
the link over the stored atoms, insert.  (Go wraps endpoint errors; the
model propagates the underlying error.) -/
def createInheritanceLink (sm : ShardManager)
    (sourceID targetID tenantID : String) :
    Except StoreError (Atom × ShardManager) := do
  let source ← smGetAtom sm sourceID tenantID
  let target ← smGetAtom sm targetID tenantID
  let outgoing := [source, target]
  let atomID := generateAtomID .inheritanceLink "inheritance" outgoing
  let link := newLink atomID "inheritance" tenantID .inheritanceLink outgoing
  let sm' ← smAddAtom sm link
  return (link, sm')

/-! ## Inference rules (inference.go)

`DeductionRule`, `InductionRule`, `AbductionRule` over an atom snapshot.
The Go loops first collect all InheritanceLinks (via type check and
`*Link` cast) and then skip entries with `len(Outgoing) != 2`; collecting
the binary ones up front emits the same atoms in the same order, since
non-binary entries never participate in a pair. -/

/-- The binary InheritanceLinks of a snapshot, as (header, source,
target) triples in snapshot order. -/
def binaryInheritanceLinks (atoms : List Atom) :
    List (AtomData × Atom × Atom) :=
  atoms.filterMap (fun a =>
    match a with
    | .link base [x, y] =>
      if base.atomType = .inheritanceLink then some (base, x, y) else none
    | _ => none)

/-- The link `DeductionRule.Apply` builds from a matched pair `A→B`,
`B→C`: InheritanceLink `A→C` named "inheritance", tenant of the first
premise, truth `(s1·s2, c1·c2·0.9)`. -/
def mkDeducedLink (l1 l2 : AtomData × Atom × Atom) : Atom :=
  let newOutgoing := [l1.2.1, l2.2.2]
  let newID := generateAtomID .inheritanceLink "inheritance" newOutgoing
  (newLink newID "inheritance" l1.1.tenantID .inheritanceLink
    newOutgoing).setTruthValue
    ⟨l1.1.truthVal.strength * l2.1.truthVal.strength,
     l1.1.truthVal.confidence * l2.1.truthVal.confidence * (9 / 10)⟩

/-- `DeductionRule.CanApply`: at least one InheritanceLink and at least
two atoms. -/
def deductionCanApply (atoms : List Atom) : Bool :=
  atoms.any (fun a => a.getType = .inheritanceLink) && 2 ≤ atoms.length

/-- `DeductionRule.Apply`: for every ordered pair of distinct positions
`i ≠ j` among the binary InheritanceLinks with
`links[i].Outgoing[1].ID = links[j].Outgoing[0].ID`, emit the chained
link. -/
def deductionApply (atoms : List Atom) : List Atom :=
  let links := binaryInheritanceLinks atoms
  links.enum.flatMap (fun p =>
    links.enum.filterMap (fun q =>
      if p.1 = q.1 then none
      else if p.2.2.2.getID = q.2.2.1.getID then
        some (mkDeducedLink p.2 q.2)
      else none))

/-- The SimilarityLink `InductionRule.Apply` builds from two links with a
common target: sources as outgoing, tenant of the first, truth
`(0.7, 0.8)`. -/
def mkSimilarityLink (g1 g2 : AtomData × Atom × Atom) : Atom :=
  let newOutgoing := [g1.2.1, g2.2.1]
  let newID := generateAtomID .similarityLink "similarity" newOutgoing
  (newLink newID "similarity" g1.1.tenantID .similarityLink
    newOutgoing).setTruthValue ⟨7 / 10, 4 / 5⟩

/-- `InductionRule.CanApply`: at least three InheritanceLinks. -/
def inductionCanApply (atoms : List Atom) : Bool :=
  3 ≤ atoms.countP (fun a => a.getType = .inheritanceLink)

/-- Group the binary InheritanceLinks by target id (Go builds
`targetGroups`; first-seen order renders the map deterministically). -/
def groupByTarget (links : List (AtomData × Atom × Atom)) :
    List (String × List (AtomData × Atom × Atom)) :=
  links.foldl (fun gs l => addToBucket gs l.2.2.getID l) []

/-- `InductionRule.Apply`: for every group of ≥ 2 links sharing a target,
a SimilarityLink for every `i < j` pair of their sources. -/
def inductionApply (atoms : List Atom) : List Atom :=
  (groupByTarget (binaryInheritanceLinks atoms)).flatMap (fun g =>
    if 2 ≤ g.2.length then
      g.2.enum.flatMap (fun p =>
        g.2.enum.filterMap (fun q =>
          if p.1 < q.1 then some (mkSimilarityLink p.2 q.2) else none))
    else [])

/-- `AbductionRule.CanApply`: at least two atoms. -/
def abductionCanApply (atoms : List Atom) : Bool := 2 ≤ atoms.length

/-- `AbductionRule.Apply`: emits no atoms. -/
def abductionApply (_ : List Atom) : List Atom := []

/-- The registered rule identities, in registration order
(`InitializeTenant` adds deduction, induction, abduction). -/
inductive Rule where
  | deduction
  | induction
  | abduction
deriving DecidableEq, Repr

def Rule.canApply : Rule → List Atom → Bool
  | .deduction => deductionCanApply
  | .induction => inductionCanApply
  | .abduction => abductionCanApply

def Rule.apply : Rule → List Atom → List Atom
  | .deduction => deductionApply
  | .induction => inductionApply
  | .abduction => abductionApply

/-- The default rule set of every tenant engine. -/
def defaultRules : List Rule := [.deduction, .induction, .abduction]

/-! ## Inference engine fixpoint loop (inference.go `RunInference`) -/

/-- The error returned when the caller's context fired. -/
inductive InferenceError where
  | cancelled
deriving DecidableEq, Repr

/-- Reinsert rule outputs in order, keeping those `AddAtom` accepts
(content-addressed duplicates fail with `AlreadyExists` and are
dropped). -/
def insertNewAtoms (sm : ShardManager) : List Atom → List Atom × ShardManager
  | [] => ([], sm)
  | atom :: rest =>
    match smAddAtom sm atom with
    | .ok sm' =>
      (atom :: (insertNewAtoms sm' rest).1, (insertNewAtoms sm' rest).2)
    | .error _ => insertNewAtoms sm rest

/-- One inference iteration: snapshot the tenant, apply every applicable
rule (in registration order; results consumed in dispatch order), and
reinsert the outputs. -/
def inferStep (rules : List Rule) (tenantID : String) (sm : ShardManager) :
    List Atom × ShardManager :=
  let atoms := smQueryAtoms sm tenantID none
  if atoms.isEmpty then ([], sm)
  else
    let applicable := rules.filter (fun r => r.canApply atoms)
    insertNewAtoms sm (applicable.map (fun r => r.apply atoms)).flatten

/-- `RunInference`'s loop: per iteration, check cancellation, snapshot,
break when the snapshot is empty, no rule applies, or nothing new was
inserted (fixpoint).  Returns the accumulated new atoms, the final store,
the error, and the number of loop iterations entered. -/
def runInferenceLoop (rules : List Rule) (tenantID : String)
    (cancelled : Bool) : Nat → ShardManager →
    List Atom × ShardManager × Option InferenceError × Nat
  | 0, sm => ([], sm, none, 0)
  | fuel + 1, sm =>
    if cancelled then ([], sm, some .cancelled, 0)
    else
      let atoms := smQueryAtoms sm tenantID none
      if atoms.isEmpty then ([], sm, none, 1)
      else if (rules.filter (fun r => r.canApply atoms)).isEmpty then
        ([], sm, none, 1)
      else if (inferStep rules tenantID sm).1.isEmpty then
        ([], (inferStep rules tenantID sm).2, none, 1)
      else
        ((inferStep rules tenantID sm).1 ++
          (runInferenceLoop rules tenantID cancelled fuel
            (inferStep rules tenantID sm).2).1,
         (runInferenceLoop rules tenantID cancelled fuel
            (inferStep rules tenantID sm).2).2.1,
         (runInferenceLoop rules tenantID cancelled fuel
            (inferStep rules tenantID sm).2).2.2.1,
         (runInferenceLoop rules tenantID cancelled fuel
            (inferStep rules tenantID sm).2).2.2.2 + 1)

/-- `InferenceEngine.RunInference` for a tenant with an iteration cap. -/
def runInference (rules : List Rule) (tenantID : String) (cancelled : Bool)
    (maxIterations : Nat) (sm : ShardManager) :
    List Atom × ShardManager × Option InferenceError :=
  ((runInferenceLoop rules tenantID cancelled maxIterations sm).1,
   (runInferenceLoop rules tenantID cancelled maxIterations sm).2.1,
   (runInferenceLoop rules tenantID cancelled maxIterations sm).2.2.1)

/-- The fixpoint property: one more iteration inserts nothing. -/
def atFixpoint (rules : List Rule) (tenantID : String)
    (sm : ShardManager) : Prop :=
  (inferStep rules tenantID sm).1 = []

/-! ## Agent scheduler (agents.go)

Only the fields the scheduling claims observe are modelled.  The Go
registry is a map (`as.agents`); `rebuildPriorityQueue` copies it into a
slice — in map iteration order, which is unspecified — and sorts it with
the pairwise-swap loop below.  The model feeds the sort the registration
order, the best case for the claim under scrutiny. -/

/-- An agent as the scheduler sees it. -/
structure AgentInfo where
  id : String
  priority : Int
deriving DecidableEq, Repr

/-- One pass of `rebuildPriorityQueue`'s inner loop with `x` in slot `i`:
whenever a later element is larger, the current occupant swaps out to
that position.  Returns the final occupant of slot `i` (the maximum) and
the rewritten suffix. -/
def bubbleOut : AgentInfo → List AgentInfo → AgentInfo × List AgentInfo
  | x, [] => (x, [])
  | x, y :: rest =>
    if x.priority < y.priority then
      ((bubbleOut y rest).1, x :: (bubbleOut y rest).2)
    else
      ((bubbleOut x rest).1, y :: (bubbleOut x rest).2)

theorem bubbleOut_length (x : AgentInfo) (l : List AgentInfo) :
    (bubbleOut x l).2.length = l.length := by
  induction l generalizing x with
  | nil => rfl
  | cons y rest ih =>
    simp only [bubbleOut]
    split <;> simp [ih]

/-- `rebuildPriorityQueue`'s double loop rendered with explicit fuel (the
outer index): each outer step extracts the maximum of the remaining
suffix via `bubbleOut` and recurses on the rewritten rest, which is one
shorter. -/
def rebuildAux : Nat → List AgentInfo → List AgentInfo
  | 0, _ => []
  | _, [] => []
  | fuel + 1, x :: rest =>
    (bubbleOut x rest).1 :: rebuildAux fuel (bubbleOut x rest).2

/-- `rebuildPriorityQueue`'s double loop
(`for i ...; for j > i ...; if a[i].pri < a[j].pri swap`): the outer
loop runs once per element. -/
def rebuildPriorityQueue (l : List AgentInfo) : List AgentInfo :=
  rebuildAux l.length l

/-- `scheduleAgents` dispatches the priority list in order; with agents
registered in the given order the dispatched list is the rebuilt queue. -/
def scheduleOrder (registered : List AgentInfo) : List AgentInfo :=
  rebuildPriorityQueue registered

/-! ## Attention agent (agents.go `AttentionAgent.Run`) -/

/-- Wrap an integer into Go's `int16` range. -/
def wrap16 (z : Int) : Int := (z + 32768) % 65536 - 32768

/-- Go's `int16(float64(sti) * 0.95)` as exact integer arithmetic:
truncation toward zero of `19·sti/20`.  Checked by hand against IEEE-754
binary64: for every `|sti| < 2^15` the double product
`float64(sti) * 0.95` (with `0.95` the nearest double, `0.95 − 0.4·2⁻⁵³`)
rounds to a value whose Go conversion (truncation toward zero) agrees
with `Int.tdiv (19 * sti) 20` — the perturbation `|sti|·0.4·2⁻⁵³` is
below half an ulp at every multiple of `1/20`, and exact at multiples
of 20. -/
def decaySTI (sti : Int) : Int := Int.tdiv (19 * sti) 20

/-- The per-atom body of `AttentionAgent.Run`: decay STI, then boost STI
by 10 and LTI by 1 when both truth components exceed 0.8.  (`wrap16`
records that the Go additions are `int16` additions.) -/
def attentionUpdate (tv : TruthValue) (av : AttentionValue) :
    AttentionValue :=
  let sti1 := decaySTI av.sti
  if 4 / 5 < tv.strength ∧ 4 / 5 < tv.confidence then
    ⟨wrap16 (sti1 + 10), wrap16 (av.lti + 1), av.vlti⟩
  else
    ⟨sti1, av.lti, av.vlti⟩

/-- `AttentionAgent.Run`: query the tenant's atoms and write each one's
updated attention value back through the shared object
(`SetAttentionValue`). -/
def attentionAgentRun (sm : ShardManager) (tenantID : String) :
    ShardManager :=
  (smQueryAtoms sm tenantID none).foldl
    (fun sm atom =>
      smSetAttentionValue sm atom.getID atom.getTenantID
        (attentionUpdate atom.getTruthValue atom.getAttentionValue))
    sm

/-! ## Specification-side definitions

These render claim sentences, to be compared with the code-side
definitions above. -/

/-- Modelled from the spec: the routing formula
`fnv1a64(tenant_id ‖ ":" ‖ atom_id) mod N` of §4.2. -/
def routingSpec (atomID tenantID : String) (numShards : Nat) : Nat :=
  fnv1a64 (strBytes (tenantID ++ ":" ++ atomID)) % numShards

/-- Stable insertion of an agent into a priority-descending list:
the inserted (earlier-registered) agent precedes later agents of equal
priority. -/
def insertByPriority (x : AgentInfo) : List AgentInfo → List AgentInfo
  | [] => [x]
  | y :: ys =>
    if x.priority < y.priority then y :: insertByPriority x ys
    else x :: y :: ys

/-- Modelled from the claim: the dispatch order C7 asserts — sorted by
priority, higher first, ties in registration order (a stable descending
sort). -/
def stableSortByPriority : List AgentInfo → List AgentInfo
  | [] => []
  | x :: rest => insertByPriority x (stableSortByPriority rest)

/-- Modelled from the claim: the per-atom attention update C9 asserts,
with the decay read as `floor(sti · 0.95)` (`Int.fdiv` floors). -/
def attentionClaimUpdate (tv : TruthValue) (av : AttentionValue) :
    AttentionValue :=
  let sti1 := Int.fdiv (19 * av.sti) 20
  if 4 / 5 < tv.strength ∧ 4 / 5 < tv.confidence then
    ⟨sti1 + 10, av.lti + 1, av.vlti⟩
  else
    ⟨sti1, av.lti, av.vlti⟩

/-! ## The concrete transitive-deduction scenario (spec §8, scenario 1) -/

/-- Tenant `demo`: concepts Cat, Mammal, Animal; links Cat→Mammal and
Mammal→Animal, built through the façade constructors over the default
8-shard manager. -/
def demoSetup : Except StoreError ShardManager := do
  let sm := newShardManager 8
  let (cat, sm) ← createConceptNode sm "Cat" "demo"
  let (mammal, sm) ← createConceptNode sm "Mammal" "demo"
  let (animal, sm) ← createConceptNode sm "Animal" "demo"
  let (_, sm) ← createInheritanceLink sm cat.getID mammal.getID "demo"
  let (_, sm) ← createInheritanceLink sm mammal.getID animal.getID "demo"
  return sm

/-- The demo store (the setup succeeds; see `demoSetup_ok`). -/
def demoSM : ShardManager :=
  match demoSetup with
  | .ok sm => sm
  | .error _ => newShardManager 8

def catID : String := generateAtomID .conceptNode "Cat" []

def mammalID : String := generateAtomID .conceptNode "Mammal" []

def animalID : String := generateAtomID .conceptNode "Animal" []

/-! ## Supporting lemmas -/

theorem bubbleOut_perm (x : AgentInfo) (l : List AgentInfo) :
    List.Perm ((bubbleOut x l).1 :: (bubbleOut x l).2) (x :: l) := by
  induction l generalizing x with
  | nil => simp [bubbleOut]
  | cons y rest ih =>
    simp only [bubbleOut]
    split
    · exact (List.Perm.swap x (bubbleOut y rest).1 _).trans ((ih y).cons x)
    · exact ((List.Perm.swap y (bubbleOut x rest).1 _).trans
        ((ih x).cons y)).trans (List.Perm.swap x y rest)

theorem bubbleOut_le_max (x : AgentInfo) (l : List AgentInfo) :
    x.priority ≤ (bubbleOut x l).1.priority := by
  induction l generalizing x with
  | nil => simp [bubbleOut]
  | cons y rest ih =>
    simp only [bubbleOut]
    split
    · exact le_of_lt (lt_of_lt_of_le (by assumption) (ih y))
    · exact ih x

theorem bubbleOut_mem_le (x z : AgentInfo) (l : List AgentInfo)
    (hz : z ∈ (bubbleOut x l).2) :
    z.priority ≤ (bubbleOut x l).1.priority := by
  induction l generalizing x with
  | nil => simp [bubbleOut] at hz
  | cons y rest ih =>
    simp only [bubbleOut] at hz ⊢
    split at hz <;> rename_i hcmp <;> simp only [List.mem_cons] at hz
    · simp only [if_pos hcmp]
      rcases hz with rfl | hz
      · exact le_of_lt (lt_of_lt_of_le hcmp (bubbleOut_le_max y rest))
      · exact ih y hz
    · simp only [if_neg hcmp]
      rcases hz with rfl | hz
      · exact le_trans (le_of_not_lt hcmp) (bubbleOut_le_max x rest)
      · exact ih x hz

theorem rebuildAux_perm (fuel : Nat) (l : List AgentInfo)
    (h : l.length ≤ fuel) : List.Perm (rebuildAux fuel l) l := by
  induction fuel generalizing l with
  | zero =>
    have : l = [] := List.eq_nil_of_length_eq_zero (Nat.le_zero.mp h)
    subst this
    simp [rebuildAux]
  | succ fuel ih =>
    match l with
    | [] => simp [rebuildAux]
    | x :: rest =>
      rw [rebuildAux]
      have hlen : (bubbleOut x rest).2.length ≤ fuel := by
        rw [bubbleOut_length]
        simpa using h
      exact ((ih _ hlen).cons _).trans (bubbleOut_perm x rest)

theorem rebuildAux_sorted (fuel : Nat) (l : List AgentInfo)
    (h : l.length ≤ fuel) :
    (rebuildAux fuel l).Pairwise
      (fun a b : AgentInfo => b.priority ≤ a.priority) := by
  induction fuel generalizing l with
  | zero => simp [rebuildAux]
  | succ fuel ih =>
    match l with
    | [] => simp [rebuildAux]
    | x :: rest =>
      rw [rebuildAux]
      have hlen : (bubbleOut x rest).2.length ≤ fuel := by
        rw [bubbleOut_length]
        simpa using h
      refine List.Pairwise.cons ?_ (ih _ hlen)
      intro z hz
      exact bubbleOut_mem_le x z rest
        ((rebuildAux_perm fuel _ hlen).mem_iff.mp hz)

theorem rebuildPriorityQueue_perm (l : List AgentInfo) :
    List.Perm (rebuildPriorityQueue l) l :=
  rebuildAux_perm l.length l le_rfl

theorem rebuildPriorityQueue_sorted (l : List AgentInfo) :
    (rebuildPriorityQueue l).Pairwise
      (fun a b => b.priority ≤ a.priority) :=
  rebuildAux_sorted l.length l le_rfl

/-! ## Claim C7: agent scheduling order -/

/-- C7 counterexample.  Register agents a (priority 2), b (3), c (2),
d (4) in this order.  The claim predicts the dispatch order of a stable
descending sort — d, b, a, c — but the pairwise-swap sort of
`rebuildPriorityQueue` moves the earlier-registered a after c
(dispatching d, b, c, a): the swap at the outer index of a relocates it
behind its equal-priority peer. -/
theorem scheduleOrder_ties_counterexample :
    scheduleOrder [⟨"a", 2⟩, ⟨"b", 3⟩, ⟨"c", 2⟩, ⟨"d", 4⟩] =
      [⟨"d", 4⟩, ⟨"b", 3⟩, ⟨"c", 2⟩, ⟨"a", 2⟩] ∧
    stableSortByPriority [⟨"a", 2⟩, ⟨"b", 3⟩, ⟨"c", 2⟩, ⟨"d", 4⟩] =
      [⟨"d", 4⟩, ⟨"b", 3⟩, ⟨"a", 2⟩, ⟨"c", 2⟩] ∧
    scheduleOrder [⟨"a", 2⟩, ⟨"b", 3⟩, ⟨"c", 2⟩, ⟨"d", 4⟩] ≠
      stableSortByPriority [⟨"a", 2⟩, ⟨"b", 3⟩, ⟨"c", 2⟩, ⟨"d", 4⟩] := by
  refine ⟨by decide, by decide, by decide⟩

/-- C7 (amended): the list dispatched on a tick is a permutation of the
registered agents sorted by priority, higher first; the order of
equal-priority agents is NOT the registration order in general (the sort
is unstable, and the Go registry is a map with unspecified iteration
order). -/
theorem scheduleOrder_sorted (registered : List AgentInfo) :
    List.Perm (scheduleOrder registered) registered ∧
    (scheduleOrder registered).Pairwise
      (fun a b => b.priority ≤ a.priority) :=
  ⟨rebuildPriorityQueue_perm registered,
   rebuildPriorityQueue_sorted registered⟩

/-! ## Claim C5: tenant-aware shard dispersion -/

/-- C5 counterexample.  Tenants "a" and "i" are distinct, yet for the
atom id "x" both route to shard 6 of the default 8: the hash mod 8 can
collide across tenants, so atoms of different tenants with equal ids do
NOT always land on different shards. -/
theorem shard_dispersion_counterexample :
    getShardIDInternal (newShardManager 8) "x" "a" = 6 ∧
    getShardIDInternal (newShardManager 8) "x" "i" = 6 ∧
    ("a" : String) ≠ "i" := by
  refine ⟨by decide, by decide, by decide⟩

/-- C5 (amended): the shard index is exactly
`fnv1a64(tenant_id ‖ ":" ‖ atom_id) mod N` and always lies below the
shard count; distinct tenants with an equal atom id may land on
different shards (e.g. tenants "a" and "b" for id "x") but need not
(see the counterexample). -/
theorem getShardIDInternal_spec (sm : ShardManager)
    (atomID tenantID : String) (h : 0 < sm.numShards) :
    getShardIDInternal sm atomID tenantID =
      routingSpec atomID tenantID sm.numShards ∧
    getShardIDInternal sm atomID tenantID < sm.numShards ∧
    getShardIDInternal (newShardManager 8) "x" "a" ≠
      getShardIDInternal (newShardManager 8) "x" "b" :=
  ⟨rfl, Nat.mod_lt _ h, by decide⟩

/-- Witness for `getShardIDInternal_spec` at the default 8-shard manager. -/
theorem getShardIDInternal_spec_witness :
    0 < (newShardManager 8).numShards ∧
    getShardIDInternal (newShardManager 8) "x" "a" =
      routingSpec "x" "a" (newShardManager 8).numShards :=
  ⟨by decide, (getShardIDInternal_spec (newShardManager 8) "x" "a"
    (by decide)).1⟩

/-! ## Claim C4: cross-tenant GetAtom failure kind -/

/-- The store of tenant "a" holding the single concept "Cat". -/
def tenantA_SM : ShardManager :=
  match createConceptNode (newShardManager 8) "Cat" "a" with
  | .ok (_, sm) => sm
  | .error _ => newShardManager 8

set_option maxRecDepth 40000 in
/-- C4 counterexample.  Concept "Cat" is stored under tenant "a" (shard
6), but `GetAtom` for tenant "b" routes its id to shard 1, which does not
hold it: the call fails with NotFound, not TenantMismatch. -/
theorem crossTenant_getAtom_counterexample :
    smGetAtom tenantA_SM catID "a" = .ok (newNode catID "Cat" "a" .conceptNode) ∧
    getShardIDInternal tenantA_SM catID "a" = 6 ∧
    getShardIDInternal tenantA_SM catID "b" = 1 ∧
    smGetAtom tenantA_SM catID "b" = .error (.notFound catID) := by
  refine ⟨by decide, by decide, by decide, by decide⟩

/-- C4 (amended): for an atom stored under tenant t, `GetAtom` of its id
by a foreign tenant t' never returns that atom: it fails with NotFound
(when t' routes the id to a shard not holding it) or TenantMismatch
(when the routed shard holds it under t), and any successful result is
an atom owned by t' itself. -/
theorem smGetAtom_foreign (sm : ShardManager) (atomID t' : String)
    (a : Atom) (h : a.getTenantID ≠ t') :
    smGetAtom sm atomID t' ≠ .ok a ∧
    (smGetAtom sm atomID t' = .error (.notFound atomID) ∨
     smGetAtom sm atomID t' = .error (.tenantMismatch t') ∨
     ∃ b, smGetAtom sm atomID t' = .ok b ∧ b.getTenantID = t') := by
  cases hl : lookupEntry (shardOf sm atomID t').atoms atomID with
  | none =>
    have hres : smGetAtom sm atomID t' = .error (.notFound atomID) := by
      simp [smGetAtom, getAtom, hl]
    exact ⟨by simp [hres], Or.inl hres⟩
  | some atom =>
    by_cases ht : atom.getTenantID = t'
    · have hres : smGetAtom sm atomID t' = .ok atom := by
        simp [smGetAtom, getAtom, hl, ht]
      refine ⟨?_, Or.inr (Or.inr ⟨atom, hres, ht⟩)⟩
      rw [hres]
      intro hE
      exact h (Except.ok.inj hE ▸ ht)
    · have hres : smGetAtom sm atomID t' = .error (.tenantMismatch t') := by
        simp [smGetAtom, getAtom, hl, ht]
      exact ⟨by simp [hres], Or.inr (Or.inl hres)⟩

set_option maxRecDepth 40000 in
/-- Witness for `smGetAtom_foreign`: the stored "Cat" of tenant "a"
against tenant "b". -/
theorem smGetAtom_foreign_witness :
    (newNode catID "Cat" "a" .conceptNode).getTenantID ≠ "b" ∧
    smGetAtom tenantA_SM catID "b" ≠
      .ok (newNode catID "Cat" "a" .conceptNode) :=
  ⟨by decide, (smGetAtom_foreign tenantA_SM catID "b"
    (newNode catID "Cat" "a" .conceptNode) (by decide)).1⟩

/-! ## Store-update lemmas -/

theorem Atom.getTenantID_setTruthValue (a : Atom) (tv : TruthValue) :
    (a.setTruthValue tv).getTenantID = a.getTenantID := by
  cases a <;> rfl

theorem Atom.getTenantID_setAttentionValue (a : Atom) (av : AttentionValue) :
    (a.setAttentionValue av).getTenantID = a.getTenantID := by
  cases a <;> rfl

theorem getAtom_ok_iff (as : AtomSpace) (atomID tenantID : String)
    (b : Atom) :
    getAtom as atomID tenantID = .ok b ↔
      lookupEntry as.atoms atomID = some b ∧ b.getTenantID = tenantID := by
  unfold getAtom
  cases h : lookupEntry as.atoms atomID with
  | none => simp
  | some atom =>
    by_cases ht : atom.getTenantID = tenantID
    · simp only [ht, if_pos rfl]
      constructor
      · intro hE
        cases Except.ok.inj hE
        exact ⟨rfl, ht⟩
      · rintro ⟨hsome, _⟩
        cases Option.some.inj hsome
        rfl
    · simp only [if_neg ht]
      constructor
      · intro hE
        cases hE
      · rintro ⟨hsome, hb⟩
        cases Option.some.inj hsome
        exact absurd hb ht

theorem smGetAtom_ok_iff (sm : ShardManager) (atomID tenantID : String)
    (b : Atom) :
    smGetAtom sm atomID tenantID = .ok b ↔
      lookupEntry (shardOf sm atomID tenantID).atoms atomID = some b ∧
        b.getTenantID = tenantID :=
  getAtom_ok_iff (shardOf sm atomID tenantID) atomID tenantID b

theorem getAtom_congr_lookup (as1 as2 : AtomSpace) (atomID tenantID : String)
    (h : lookupEntry as1.atoms atomID = lookupEntry as2.atoms atomID) :
    getAtom as1 atomID tenantID = getAtom as2 atomID tenantID := by
  unfold getAtom
  rw [h]

theorem lookupEntry_cons {κ β : Type} [DecidableEq κ] (pk : κ) (pv : β)
    (rest : List (κ × β)) (key : κ) :
    lookupEntry ((pk, pv) :: rest) key =
      if pk = key then some pv else lookupEntry rest key := rfl

theorem setEntry_cons (pk : String) (pv : Atom)
    (rest : List (String × Atom)) (k : String) (v : Atom) :
    setEntry ((pk, pv) :: rest) k v =
      (if pk = k then (k, v) else (pk, pv)) :: setEntry rest k v := rfl

theorem lookupEntry_setEntry_self (l : List (String × Atom)) (k : String)
    (v w : Atom) (h : lookupEntry l k = some w) :
    lookupEntry (setEntry l k v) k = some v := by
  induction l with
  | nil => simp [lookupEntry] at h
  | cons p rest ih =>
    obtain ⟨pk, pv⟩ := p
    by_cases hp : pk = k
    · rw [setEntry_cons, if_pos hp, lookupEntry_cons, if_pos rfl]
    · rw [setEntry_cons, if_neg hp, lookupEntry_cons, if_neg hp]
      rw [lookupEntry_cons, if_neg hp] at h
      exact ih h

theorem lookupEntry_setEntry_ne (l : List (String × Atom)) (k k' : String)
    (v : Atom) (h : k' ≠ k) :
    lookupEntry (setEntry l k v) k' = lookupEntry l k' := by
  induction l with
  | nil => rfl
  | cons p rest ih =>
    obtain ⟨pk, pv⟩ := p
    by_cases hp : pk = k
    · rw [setEntry_cons, if_pos hp, lookupEntry_cons, if_neg (Ne.symm h),
        lookupEntry_cons, if_neg (hp ▸ fun hh => h hh.symm), ih]
    · rw [setEntry_cons, if_neg hp, lookupEntry_cons, lookupEntry_cons, ih]

theorem setEntry_keys (l : List (String × Atom)) (k : String) (v : Atom) :
    (setEntry l k v).map Prod.fst = l.map Prod.fst := by
  induction l with
  | nil => rfl
  | cons p rest ih =>
    obtain ⟨pk, pv⟩ := p
    by_cases hp : pk = k
    · rw [setEntry_cons, if_pos hp, List.map_cons, List.map_cons, ih, hp]
    · rw [setEntry_cons, if_neg hp, List.map_cons, List.map_cons, ih]

theorem mapAV_cons (pk : String) (pv : Atom) (rest : List (String × Atom))
    (k : String) (av : AttentionValue) :
    ((pk, pv) :: rest).map (fun p =>
      if p.1 = k then (p.1, p.2.setAttentionValue av) else p) =
      (if pk = k then (pk, pv.setAttentionValue av) else (pk, pv)) ::
        rest.map (fun p =>
          if p.1 = k then (p.1, p.2.setAttentionValue av) else p) := rfl

theorem lookupEntry_setAV_self (l : List (String × Atom)) (k : String)
    (av : AttentionValue) (w : Atom) (h : lookupEntry l k = some w) :
    lookupEntry (l.map (fun p =>
      if p.1 = k then (p.1, p.2.setAttentionValue av) else p)) k =
      some (w.setAttentionValue av) := by
  induction l with
  | nil => simp [lookupEntry] at h
  | cons p rest ih =>
    obtain ⟨pk, pv⟩ := p
    by_cases hp : pk = k
    · rw [lookupEntry_cons, if_pos hp] at h
      cases Option.some.inj h
      rw [mapAV_cons, if_pos hp, lookupEntry_cons, if_pos hp]
    · rw [lookupEntry_cons, if_neg hp] at h
      rw [mapAV_cons, if_neg hp, lookupEntry_cons, if_neg hp]
      exact ih h

theorem lookupEntry_setAV_ne (l : List (String × Atom)) (k k' : String)
    (av : AttentionValue) (h : k' ≠ k) :
    lookupEntry (l.map (fun p =>
      if p.1 = k then (p.1, p.2.setAttentionValue av) else p)) k' =
      lookupEntry l k' := by
  induction l with
  | nil => rfl
  | cons p rest ih =>
    obtain ⟨pk, pv⟩ := p
    by_cases hp : pk = k
    · rw [mapAV_cons, if_pos hp, lookupEntry_cons,
        if_neg (hp ▸ fun hh => h hh.symm), lookupEntry_cons,
        if_neg (hp ▸ fun hh => h hh.symm), ih]
    · rw [mapAV_cons, if_neg hp, lookupEntry_cons, lookupEntry_cons, ih]

theorem getD_set_self {α : Type} (l : List α) (i : Nat) (a d : α)
    (h : i < l.length) : (l.set i a).getD i d = a := by
  induction l generalizing i with
  | nil => simp at h
  | cons x rest ih =>
    cases i with
    | zero => rfl
    | succ i => exact ih i (by simpa using h)

theorem getD_set_ne {α : Type} (l : List α) (i j : Nat) (a d : α)
    (h : j ≠ i) : (l.set i a).getD j d = l.getD j d := by
  induction l generalizing i j with
  | nil => rfl
  | cons x rest ih =>
    cases i with
    | zero =>
      cases j with
      | zero => exact absurd rfl h
      | succ j => rfl
    | succ i =>
      cases j with
      | zero => rfl
      | succ j => exact ih i j (by omega)

/-- A shard whose primary map answers a lookup is a real entry of the
shard array: an out-of-range route would have produced the empty default
shard. -/
theorem route_lt_of_lookup (sm : ShardManager) (atomID tenantID : String)
    (b : Atom)
    (h : lookupEntry (shardOf sm atomID tenantID).atoms atomID = some b) :
    getShardIDInternal sm atomID tenantID < sm.shards.length := by
  by_contra hge
  have hdef : shardOf sm atomID tenantID = newAtomSpace := by
    unfold shardOf
    rw [List.getD_eq_getElem?_getD, List.getElem?_eq_none (by omega)]
    rfl
  rw [hdef] at h
  simp [newAtomSpace, lookupEntry] at h

theorem shardOf_write_same (sm : ShardManager) (atomID tenantID : String)
    (s : AtomSpace)
    (hlt : getShardIDInternal sm atomID tenantID < sm.shards.length) :
    shardOf (setShardOf sm atomID tenantID s) atomID tenantID = s := by
  unfold shardOf setShardOf getShardIDInternal
  exact getD_set_self _ _ _ _ hlt

theorem shardOf_write_congr (sm : ShardManager) (a1 t1 a2 t2 : String)
    (s : AtomSpace)
    (hidx : getShardIDInternal sm a2 t2 = getShardIDInternal sm a1 t1)
    (hlt : getShardIDInternal sm a1 t1 < sm.shards.length) :
    shardOf (setShardOf sm a1 t1 s) a2 t2 = s := by
  unfold shardOf setShardOf getShardIDInternal at *
  rw [hidx]
  exact getD_set_self _ _ _ _ hlt

theorem shardOf_write_other (sm : ShardManager) (a1 t1 a2 t2 : String)
    (s : AtomSpace)
    (hidx : getShardIDInternal sm a2 t2 ≠ getShardIDInternal sm a1 t1) :
    shardOf (setShardOf sm a1 t1 s) a2 t2 = shardOf sm a2 t2 := by
  unfold shardOf setShardOf getShardIDInternal at *
  exact getD_set_ne _ _ _ _ _ hidx

theorem shardOf_congr_idx (sm : ShardManager) (a1 t1 a2 t2 : String)
    (hidx : getShardIDInternal sm a2 t2 = getShardIDInternal sm a1 t1) :
    shardOf sm a2 t2 = shardOf sm a1 t1 := by
  unfold shardOf getShardIDInternal at *
  rw [hidx]

/-! ## Claim C10: frame property of UpdateAtom -/

/-- C10: `updateAtomInternal` neither adds nor removes atoms: the stored
id sequence and the tenant, type and name indices are untouched, every
other id resolves as before, and a NotFound or TenantMismatch result
leaves the store entirely unchanged.  (The mutator may rewrite the one
atom named by `atomID`, and its mutation persists even when the mutator
itself errors, matching Go's in-place update.) -/
theorem updateAtom_frame (as : AtomSpace) (atomID tenantID : String)
    (updater : Atom → Option String × Atom) (res : Option UpdateError)
    (as' : AtomSpace)
    (heq : updateAtomInternal as atomID tenantID updater = (res, as')) :
    as'.atoms.map Prod.fst = as.atoms.map Prod.fst ∧
    as'.byTenant = as.byTenant ∧
    as'.byType = as.byType ∧
    as'.indices = as.indices ∧
    (∀ id', id' ≠ atomID →
      lookupEntry as'.atoms id' = lookupEntry as.atoms id') ∧
    ((res = some (.notFound atomID) ∨
      res = some (.tenantMismatch tenantID)) → as' = as) := by
  unfold updateAtomInternal at heq
  cases hl : lookupEntry as.atoms atomID with
  | none =>
    simp only [hl] at heq
    rw [Prod.mk.injEq] at heq
    obtain ⟨h1, h2⟩ := heq
    subst h1
    subst h2
    exact ⟨rfl, rfl, rfl, rfl, fun _ _ => rfl, fun _ => rfl⟩
  | some atom =>
    simp only [hl] at heq
    by_cases ht : atom.getTenantID = tenantID
    · rw [if_pos ht, Prod.mk.injEq] at heq
      obtain ⟨h1, h2⟩ := heq
      subst h1
      subst h2
      refine ⟨setEntry_keys _ _ _, rfl, rfl, rfl,
        fun id' hid => lookupEntry_setEntry_ne _ _ _ _ hid, ?_⟩
      rintro (habs | habs) <;>
        rcases hup : (updater atom).1 with _ | m <;>
          simp [hup] at habs
    · rw [if_neg ht, Prod.mk.injEq] at heq
      obtain ⟨h1, h2⟩ := heq
      subst h1
      subst h2
      exact ⟨rfl, rfl, rfl, rfl, fun _ _ => rfl, fun _ => rfl⟩

/-- The store holding the single concept "X" of tenant "t". -/
def xNodeID : String := generateAtomID .conceptNode "X" []

def xSM : ShardManager :=
  match createConceptNode (newShardManager 8) "X" "t" with
  | .ok (_, sm) => sm
  | .error _ => newShardManager 8

/-- Witness for `updateAtom_frame`: updating a missing id leaves the
empty store unchanged. -/
theorem updateAtom_frame_witness :
    (updateAtomInternal newAtomSpace "missing" "t"
      (fun a => (none, a))).2 = newAtomSpace :=
  (updateAtom_frame newAtomSpace "missing" "t" (fun a => (none, a))
    (some (.notFound "missing")) newAtomSpace rfl).2.2.2.2.2 (Or.inl rfl)

/-! ## Claim C3: truth-value range enforcement -/

set_option maxRecDepth 40000 in
/-- C3 counterexample.  `UpdateAtom` with a mutator that calls
`SetTruthValue(2, −1)` succeeds (no error, in particular no
InvalidTruthValue), and the stored atom afterwards carries strength 2 > 1
and confidence −1 < 0: no range validation exists anywhere on the
`AddAtom`/`UpdateAtom`/`SetTruthValue` paths. -/
theorem truthValue_range_counterexample :
    (smUpdateAtom xSM xNodeID "t"
      (fun a => (none, a.setTruthValue ⟨2, -1⟩))).1 = none ∧
    (smGetAtom (smUpdateAtom xSM xNodeID "t"
      (fun a => (none, a.setTruthValue ⟨2, -1⟩))).2 xNodeID "t").map
        Atom.getTruthValue = .ok ⟨2, -1⟩ := by
  refine ⟨by decide, by decide⟩

/-- C3 (amended): no truth-value range check exists.  `UpdateAtom` with a
mutator that sets an arbitrary truth value — in or out of `[0,1]²` —
returns no error, and the stored atom afterwards carries exactly that
value. -/
theorem smUpdateAtom_setTruthValue (sm : ShardManager)
    (atomID tenantID : String) (tv : TruthValue) (b : Atom)
    (hget : smGetAtom sm atomID tenantID = .ok b) :
    (smUpdateAtom sm atomID tenantID
      (fun a => (none, a.setTruthValue tv))).1 = none ∧
    smGetAtom (smUpdateAtom sm atomID tenantID
      (fun a => (none, a.setTruthValue tv))).2 atomID tenantID =
      .ok (b.setTruthValue tv) := by
  obtain ⟨hl, ht⟩ := (smGetAtom_ok_iff sm atomID tenantID b).mp hget
  have hlt := route_lt_of_lookup sm atomID tenantID b hl
  have hupd : updateAtomInternal (shardOf sm atomID tenantID) atomID tenantID
      (fun a => (none, a.setTruthValue tv)) =
      (none, { shardOf sm atomID tenantID with
        atoms := setEntry (shardOf sm atomID tenantID).atoms atomID
          (b.setTruthValue tv) }) := by
    simp only [updateAtomInternal, hl]
    rw [if_pos ht]
    rfl
  constructor
  · simp [smUpdateAtom, hupd]
  · have h2 : (smUpdateAtom sm atomID tenantID
        (fun a => (none, a.setTruthValue tv))).2 =
        setShardOf sm atomID tenantID
          { shardOf sm atomID tenantID with
            atoms := setEntry (shardOf sm atomID tenantID).atoms atomID
              (b.setTruthValue tv) } := by
      simp [smUpdateAtom, hupd]
    rw [h2]
    have h3 := shardOf_write_same sm atomID tenantID
      { shardOf sm atomID tenantID with
        atoms := setEntry (shardOf sm atomID tenantID).atoms atomID
          (b.setTruthValue tv) } hlt
    show getAtom _ _ _ = _
    rw [h3]
    refine (getAtom_ok_iff _ _ _ _).mpr ⟨?_, ?_⟩
    · exact lookupEntry_setEntry_self _ _ _ _ hl
    · rw [Atom.getTenantID_setTruthValue]
      exact ht

set_option maxRecDepth 40000 in
/-- Witness for `smUpdateAtom_setTruthValue` at the concrete store of
concept "X". -/
theorem smUpdateAtom_setTruthValue_witness :
    (smUpdateAtom xSM xNodeID "t"
      (fun a => (none, a.setTruthValue ⟨3, 7⟩))).1 = none :=
  (smUpdateAtom_setTruthValue xSM xNodeID "t" ⟨3, 7⟩
    (newNode xNodeID "X" "t" .conceptNode) (by decide)).1

/-! ## Claim C9: AttentionAgent per-atom update -/

theorem smGetAtom_setAV_self (sm : ShardManager) (atomID tenantID : String)
    (av : AttentionValue) (b : Atom)
    (hget : smGetAtom sm atomID tenantID = .ok b) :
    smGetAtom (smSetAttentionValue sm atomID tenantID av) atomID tenantID =
      .ok (b.setAttentionValue av) := by
  obtain ⟨hl, ht⟩ := (smGetAtom_ok_iff sm atomID tenantID b).mp hget
  have hlt := route_lt_of_lookup sm atomID tenantID b hl
  show getAtom _ _ _ = _
  rw [smSetAttentionValue, shardOf_write_same sm atomID tenantID _ hlt]
  refine (getAtom_ok_iff _ _ _ _).mpr ⟨?_, ?_⟩
  · exact lookupEntry_setAV_self _ _ _ _ hl
  · rw [Atom.getTenantID_setAttentionValue]
    exact ht

theorem smGetAtom_setAV_other (sm : ShardManager) (a1 t1 a2 t2 : String)
    (av : AttentionValue) (hne : a2 ≠ a1) :
    smGetAtom (smSetAttentionValue sm a1 t1 av) a2 t2 =
      smGetAtom sm a2 t2 := by
  by_cases hidx : getShardIDInternal sm a2 t2 = getShardIDInternal sm a1 t1
  · by_cases hlt : getShardIDInternal sm a1 t1 < sm.shards.length
    · show getAtom _ _ _ = getAtom _ _ _
      rw [smSetAttentionValue, shardOf_write_congr sm a1 t1 a2 t2 _ hidx hlt]
      refine getAtom_congr_lookup _ _ _ _ ?_
      rw [shardOf_congr_idx sm a1 t1 a2 t2 hidx]
      exact lookupEntry_setAV_ne _ _ _ _ hne
    · have hset : sm.shards.set (getShardIDInternal sm a1 t1)
          (setAttentionValueByID (shardOf sm a1 t1) a1 av) = sm.shards :=
        List.set_eq_of_length_le (Nat.le_of_not_lt hlt)
      unfold smSetAttentionValue setShardOf
      rw [hset]
  · show getAtom _ _ _ = getAtom _ _ _
    rw [smSetAttentionValue, shardOf_write_other sm a1 t1 a2 t2 _ hidx]

/-- The attention fold ignores atoms whose id differs from the one being
read. -/
theorem attentionFold_preserve (l : List Atom) (sm : ShardManager)
    (atomID tenantID : String) (h : ∀ x ∈ l, x.getID ≠ atomID) :
    smGetAtom (l.foldl (fun s x =>
      smSetAttentionValue s x.getID x.getTenantID
        (attentionUpdate x.getTruthValue x.getAttentionValue)) sm)
      atomID tenantID = smGetAtom sm atomID tenantID := by
  induction l generalizing sm with
  | nil => rfl
  | cons x rest ih =>
    rw [List.foldl_cons,
      ih _ (fun y hy => h y (List.mem_cons_of_mem x hy)),
      smGetAtom_setAV_other sm x.getID x.getTenantID atomID tenantID _
        (Ne.symm (h x (List.mem_cons_self x rest)))]

/-- C9 (amended): on a run of the AttentionAgent, the stored attention
value of each tenant atom (occurring once in the snapshot) becomes: sti
decayed by Go's `int16(float64(sti) * 0.95)` — truncation toward zero of
`sti·0.95`, which is `floor` only for nonnegative sti — then, exactly
when strength > 0.8 and confidence > 0.8, sti is boosted by 10 and lti
by 1 (as wrapping int16 additions); vlti is unchanged, and the result is
written back via `SetAttentionValue`. -/
theorem attentionAgentRun_spec (sm : ShardManager) (tenantID atomID : String)
    (a : Atom) (l₁ l₂ : List Atom)
    (hsnap : smQueryAtoms sm tenantID none = l₁ ++ a :: l₂)
    (hid : a.getID = atomID)
    (h1 : ∀ x ∈ l₁, x.getID ≠ atomID)
    (h2 : ∀ x ∈ l₂, x.getID ≠ atomID)
    (hten : a.getTenantID = tenantID)
    (hget : smGetAtom sm atomID tenantID = .ok a) :
    smGetAtom (attentionAgentRun sm tenantID) atomID tenantID =
      .ok (a.setAttentionValue
        (if 4 / 5 < a.getTruthValue.strength ∧
            4 / 5 < a.getTruthValue.confidence then
          ⟨wrap16 (Int.tdiv (19 * a.getAttentionValue.sti) 20 + 10),
           wrap16 (a.getAttentionValue.lti + 1), a.getAttentionValue.vlti⟩
         else
          ⟨Int.tdiv (19 * a.getAttentionValue.sti) 20,
           a.getAttentionValue.lti, a.getAttentionValue.vlti⟩)) := by
  unfold attentionAgentRun
  rw [hsnap, List.foldl_append, List.foldl_cons]
  rw [attentionFold_preserve l₂ _ atomID tenantID h2]
  have hpre := attentionFold_preserve l₁ sm atomID tenantID h1
  rw [hid, hten]
  rw [smGetAtom_setAV_self _ atomID tenantID _ a (hpre.trans hget)]
  rfl

set_option maxRecDepth 40000 in
/-- Witness for `attentionAgentRun_spec`: the concept "X" of tenant "t"
(truth (1,1), attention all zero) ends with sti 10, lti 1. -/
theorem attentionAgentRun_spec_witness :
    smGetAtom (attentionAgentRun xSM "t") xNodeID "t" =
      .ok (.node ⟨xNodeID, .conceptNode, "X", ⟨1, 1⟩, ⟨10, 1, 0⟩, "t"⟩) :=
  (attentionAgentRun_spec xSM "t" xNodeID
    (newNode xNodeID "X" "t" .conceptNode) [] []
    (by decide) (by decide) (by simp) (by simp) (by decide)
    (by decide)).trans (by with_unfolding_all decide)

/-- The store holding concept "N" of tenant "t" with sti −10. -/
def nNodeID : String := generateAtomID .conceptNode "N" []

def negSM : ShardManager :=
  match createConceptNode (newShardManager 8) "N" "t" with
  | .ok (_, sm) => smSetAttentionValue sm nNodeID "t" ⟨-10, 0, 0⟩
  | .error _ => newShardManager 8

set_option maxRecDepth 40000 in
/-- C9 counterexample.  An atom with sti −10 and truth (1,1): the claim's
`floor(−10·0.95) = −10` predicts a final sti of `−10 + 10 = 0`, but Go's
float-to-int16 conversion truncates toward zero, giving `−9 + 10 = 1`:
the stored sti after the run is 1, not 0. -/
theorem attention_floor_counterexample :
    (smGetAtom (attentionAgentRun negSM "t") nNodeID "t").map
      Atom.getAttentionValue = .ok ⟨1, 1, 0⟩ ∧
    attentionClaimUpdate ⟨1, 1⟩ ⟨-10, 0, 0⟩ = ⟨0, 1, 0⟩ ∧
    ((⟨1, 1, 0⟩ : AttentionValue) ≠ ⟨0, 1, 0⟩) := by
  refine ⟨by with_unfolding_all decide, by with_unfolding_all decide,
    by decide⟩

/-! ## Claim C8: inference termination and boundary behaviour -/

theorem runInferenceLoop_iters_le (rules : List Rule) (tenantID : String)
    (cancelled : Bool) : ∀ (n : Nat) (sm : ShardManager),
    (runInferenceLoop rules tenantID cancelled n sm).2.2.2 ≤ n := by
  intro n
  induction n with
  | zero => intro sm; simp [runInferenceLoop]
  | succ n ih =>
    intro sm
    simp only [runInferenceLoop]
    split
    · simp
    · split
      · simp
      · split
        · simp
        · split
          · simp
          · simpa using Nat.succ_le_succ (ih _)

/-- C8: the fixpoint loop enters at most `max_iterations` iterations (so
inference terminates within `max_iterations + 1` loop tests); with
`max_iterations = 0` it returns immediately with no atoms and no error;
and on a tenant with no atoms it returns immediately with no atoms and
no error (when the caller's context has not fired — a fired context
returns Cancelled instead, as the spec notes separately). -/
theorem runInference_bounds (rules : List Rule) (tenantID : String)
    (cancelled : Bool) (sm : ShardManager) (n : Nat) :
    (runInferenceLoop rules tenantID cancelled n sm).2.2.2 ≤ n ∧
    runInference rules tenantID cancelled 0 sm = ([], sm, none) ∧
    (smQueryAtoms sm tenantID none = [] →
      runInference rules tenantID false n sm = ([], sm, none)) := by
  refine ⟨runInferenceLoop_iters_le rules tenantID cancelled n sm, rfl, ?_⟩
  intro hempty
  cases n with
  | zero => rfl
  | succ n =>
    simp [runInference, runInferenceLoop, hempty]

/-- Witness for `runInference_bounds`: an empty 8-shard store runs to no
atoms and no error under cap 3. -/
theorem runInference_bounds_witness :
    runInference defaultRules "demo" false 3 (newShardManager 8) =
      ([], newShardManager 8, none) :=
  (runInference_bounds defaultRules "demo" false (newShardManager 8) 3).2.2
    (by decide)

/-! ## Claim C6: fixpoint idempotence of inference -/

theorem insertNewAtoms_nil (sm : ShardManager) (l : List Atom)
    (h : (insertNewAtoms sm l).1 = []) : (insertNewAtoms sm l).2 = sm := by
  induction l generalizing sm with
  | nil => rfl
  | cons atom rest ih =>
    simp only [insertNewAtoms] at h ⊢
    cases hadd : smAddAtom sm atom with
    | ok sm' => simp only [hadd] at h; simp at h
    | error e =>
      simp only [hadd] at h ⊢
      exact ih sm h

theorem inferStep_fixpoint_store (rules : List Rule) (tenantID : String)
    (sm : ShardManager) (h : (inferStep rules tenantID sm).1 = []) :
    (inferStep rules tenantID sm).2 = sm := by
  unfold inferStep at h ⊢
  by_cases hq : (smQueryAtoms sm tenantID none).isEmpty
  · simp [hq]
  · simp only [if_neg hq] at h ⊢
    exact insertNewAtoms_nil _ _ h

/-- C6: once a store is at the fixpoint (one more iteration would
reinsert zero new atoms — exactly the state in which a run ended through
the `newAtomsThisIteration == 0` break), any immediately following
`RunInference` on the unchanged tenant, under any iteration cap, returns
zero new atoms, no error, and leaves the store untouched: every rule
output — in particular every SimilarityLink the induction rule
re-derives — carries a content-addressed id that already exists, so all
reinserts fail with AlreadyExists. -/
theorem runInference_fixpoint_idempotent (rules : List Rule)
    (tenantID : String) (sm : ShardManager) (m : Nat)
    (h : atFixpoint rules tenantID sm) :
    runInference rules tenantID false m sm = ([], sm, none) := by
  unfold atFixpoint at h
  cases m with
  | zero => rfl
  | succ m =>
    unfold runInference
    simp only [runInferenceLoop]
    by_cases hq : (smQueryAtoms sm tenantID none).isEmpty
    · simp [hq]
    · by_cases hr : (rules.filter (fun r =>
          r.canApply (smQueryAtoms sm tenantID none))).isEmpty
      · simp [hq, hr]
      · have h1 : (inferStep rules tenantID sm).1.isEmpty = true := by
          simp [h]
        have h2 := inferStep_fixpoint_store rules tenantID sm h
        simp [hq, hr, h1, h2]

/-- Witness for `runInference_fixpoint_idempotent`: the empty 8-shard
store is at the fixpoint and re-running with cap 4 yields nothing. -/
theorem runInference_fixpoint_witness :
    runInference defaultRules "demo" false 4 (newShardManager 8) =
      ([], newShardManager 8, none) :=
  runInference_fixpoint_idempotent defaultRules "demo" (newShardManager 8)
    4 (by unfold atFixpoint; decide)

/-! ## Claim C2: deduction rule semantics -/

theorem mkDeducedLink_eq (l1 l2 : AtomData × Atom × Atom) :
    mkDeducedLink l1 l2 = Atom.link
      ⟨generateAtomID .inheritanceLink "inheritance" [l1.2.1, l2.2.2],
       .inheritanceLink, "inheritance",
       ⟨l1.1.truthVal.strength * l2.1.truthVal.strength,
        l1.1.truthVal.confidence * l2.1.truthVal.confidence * (9 / 10)⟩,
       ⟨0, 0, 0⟩, l1.1.tenantID⟩
      [l1.2.1, l2.2.2] := rfl

/-- C2: `DeductionRule.Apply` emits exactly the chained links: an atom is
emitted iff it is built from two binary InheritanceLinks at distinct
snapshot positions whose middle ids match, as a new InheritanceLink
`A→C` named "inheritance" over `[A, C]`, in the tenant of the first
premise, with strength `s1·s2` and confidence `c1·c2·0.9` — and nothing
else is emitted. -/
theorem deductionApply_mem_iff (atoms : List Atom) (a : Atom) :
    a ∈ deductionApply atoms ↔
      ∃ (i j : Nat) (l1 l2 : AtomData × Atom × Atom),
        (binaryInheritanceLinks atoms)[i]? = some l1 ∧
        (binaryInheritanceLinks atoms)[j]? = some l2 ∧
        i ≠ j ∧
        l1.2.2.getID = l2.2.1.getID ∧
        a = Atom.link
          ⟨generateAtomID .inheritanceLink "inheritance" [l1.2.1, l2.2.2],
           .inheritanceLink, "inheritance",
           ⟨l1.1.truthVal.strength * l2.1.truthVal.strength,
            l1.1.truthVal.confidence * l2.1.truthVal.confidence * (9 / 10)⟩,
           ⟨0, 0, 0⟩, l1.1.tenantID⟩
          [l1.2.1, l2.2.2] := by
  unfold deductionApply
  rw [List.mem_flatMap]
  constructor
  · rintro ⟨⟨i, l1⟩, hp, ha⟩
    rw [List.mem_filterMap] at ha
    obtain ⟨⟨j, l2⟩, hq, hg⟩ := ha
    dsimp only at hg
    by_cases hij : i = j
    · rw [if_pos hij] at hg
      cases hg
    · rw [if_neg hij] at hg
      by_cases hcond : l1.2.2.getID = l2.2.1.getID
      · rw [if_pos hcond] at hg
        refine ⟨i, j, l1, l2, ?_, ?_, hij, hcond, ?_⟩
        · exact List.mk_mem_enum_iff_getElem?.mp hp
        · exact List.mk_mem_enum_iff_getElem?.mp hq
        · rw [← Option.some.inj hg, mkDeducedLink_eq]
      · rw [if_neg hcond] at hg
        cases hg
  · rintro ⟨i, j, l1, l2, h1, h2, hij, hcond, rfl⟩
    refine ⟨(i, l1), List.mk_mem_enum_iff_getElem?.mpr h1, ?_⟩
    rw [List.mem_filterMap]
    refine ⟨(j, l2), List.mk_mem_enum_iff_getElem?.mpr h2, ?_⟩
    dsimp only
    rw [if_neg hij, if_pos hcond, mkDeducedLink_eq]

/-! ## Claim C1: end-to-end transitive deduction -/

def catNode : Atom := newNode catID "Cat" "demo" .conceptNode

def mammalNode : Atom := newNode mammalID "Mammal" "demo" .conceptNode

def animalNode : Atom := newNode animalID "Animal" "demo" .conceptNode

/-- The InheritanceLink Cat→Animal the deduction rule derives. -/
def catAnimalLink : Atom :=
  Atom.link
    ⟨generateAtomID .inheritanceLink "inheritance" [catNode, animalNode],
     .inheritanceLink, "inheritance", ⟨1, 9 / 10⟩, ⟨0, 0, 0⟩, "demo"⟩
    [catNode, animalNode]

/-- The SimilarityLink between Mammal and Cat the induction rule derives
in the second iteration, once Mammal→Animal and Cat→Animal share the
target Animal. -/
def mammalCatSimLink : Atom :=
  Atom.link
    ⟨generateAtomID .similarityLink "similarity" [mammalNode, catNode],
     .similarityLink, "similarity", ⟨7 / 10, 4 / 5⟩, ⟨0, 0, 0⟩, "demo"⟩
    [mammalNode, catNode]

/-- The first inference run on the demo tenant. -/
def demoRun : List Atom × ShardManager × Option InferenceError :=
  runInference defaultRules "demo" false 5 demoSM

/-- The immediately following inference run on the resulting store. -/
def demoRerun : List Atom × ShardManager × Option InferenceError :=
  runInference defaultRules "demo" false 5 demoRun.2.1

/-! The three stores the demo scenario passes through, written out
literally so that each inference iteration can be checked once.
`demoSM0` is the store after the five setup inserts, `demoSM1` after the
first iteration adds Cat→Animal, `demoSM2` after the second adds the
Mammal/Cat SimilarityLink (also the fixpoint store). -/

def demoSM0 : ShardManager :=
  ⟨[
   ⟨[],
    [],
    [],
    []⟩,
   ⟨[],
    [],
    [],
    []⟩,
   ⟨[],
    [],
    [],
    []⟩,
   ⟨[("7183ac0af76453850eed3733742ade9eef40d021f9807b00c862435576a6483c",
       .node ⟨"7183ac0af76453850eed3733742ade9eef40d021f9807b00c862435576a6483c", .conceptNode, "Animal", ⟨1, 1⟩, ⟨0, 0, 0⟩, "demo"⟩),
      ("8cf2df59a7889f69d90a0a7da85847d1bec9c752cadfe8a8e427df300ff4ad59",
       .link ⟨"8cf2df59a7889f69d90a0a7da85847d1bec9c752cadfe8a8e427df300ff4ad59", .inheritanceLink, "inheritance", ⟨1, 1⟩, ⟨0, 0, 0⟩, "demo"⟩
         [.node ⟨"50429b0398cb195f8efc24e636c5feb0602a418cebead0659e2becd44ae1f835", .conceptNode, "Mammal", ⟨1, 1⟩, ⟨0, 0, 0⟩, "demo"⟩,
          .node ⟨"7183ac0af76453850eed3733742ade9eef40d021f9807b00c862435576a6483c", .conceptNode, "Animal", ⟨1, 1⟩, ⟨0, 0, 0⟩, "demo"⟩])],
    [("demo", ["7183ac0af76453850eed3733742ade9eef40d021f9807b00c862435576a6483c", "8cf2df59a7889f69d90a0a7da85847d1bec9c752cadfe8a8e427df300ff4ad59"])],
    [(.conceptNode, ["7183ac0af76453850eed3733742ade9eef40d021f9807b00c862435576a6483c"]), (.inheritanceLink, ["8cf2df59a7889f69d90a0a7da85847d1bec9c752cadfe8a8e427df300ff4ad59"])],
    [("Animal", ["7183ac0af76453850eed3733742ade9eef40d021f9807b00c862435576a6483c"]), ("inheritance", ["8cf2df59a7889f69d90a0a7da85847d1bec9c752cadfe8a8e427df300ff4ad59"])]⟩,
   ⟨[("591cb98a778517d9c6aefd2b5213c71198e7b601bb2f011f90d9571271759b0d",
       .node ⟨"591cb98a778517d9c6aefd2b5213c71198e7b601bb2f011f90d9571271759b0d", .conceptNode, "Cat", ⟨1, 1⟩, ⟨0, 0, 0⟩, "demo"⟩)],
    [("demo", ["591cb98a778517d9c6aefd2b5213c71198e7b601bb2f011f90d9571271759b0d"])],
    [(.conceptNode, ["591cb98a778517d9c6aefd2b5213c71198e7b601bb2f011f90d9571271759b0d"])],
    [("Cat", ["591cb98a778517d9c6aefd2b5213c71198e7b601bb2f011f90d9571271759b0d"])]⟩,
   ⟨[],
    [],
    [],
    []⟩,
   ⟨[("292a579e71647b3f5c8cb3407837e56941ee3e03d378e5159b7ca8b8a24086b7",
       .link ⟨"292a579e71647b3f5c8cb3407837e56941ee3e03d378e5159b7ca8b8a24086b7", .inheritanceLink, "inheritance", ⟨1, 1⟩, ⟨0, 0, 0⟩, "demo"⟩
         [.node ⟨"591cb98a778517d9c6aefd2b5213c71198e7b601bb2f011f90d9571271759b0d", .conceptNode, "Cat", ⟨1, 1⟩, ⟨0, 0, 0⟩, "demo"⟩,
          .node ⟨"50429b0398cb195f8efc24e636c5feb0602a418cebead0659e2becd44ae1f835", .conceptNode, "Mammal", ⟨1, 1⟩, ⟨0, 0, 0⟩, "demo"⟩])],
    [("demo", ["292a579e71647b3f5c8cb3407837e56941ee3e03d378e5159b7ca8b8a24086b7"])],
    [(.inheritanceLink, ["292a579e71647b3f5c8cb3407837e56941ee3e03d378e5159b7ca8b8a24086b7"])],
    [("inheritance", ["292a579e71647b3f5c8cb3407837e56941ee3e03d378e5159b7ca8b8a24086b7"])]⟩,
   ⟨[("50429b0398cb195f8efc24e636c5feb0602a418cebead0659e2becd44ae1f835",
       .node ⟨"50429b0398cb195f8efc24e636c5feb0602a418cebead0659e2becd44ae1f835", .conceptNode, "Mammal", ⟨1, 1⟩, ⟨0, 0, 0⟩, "demo"⟩)],
    [("demo", ["50429b0398cb195f8efc24e636c5feb0602a418cebead0659e2becd44ae1f835"])],
    [(.conceptNode, ["50429b0398cb195f8efc24e636c5feb0602a418cebead0659e2becd44ae1f835"])],
    [("Mammal", ["50429b0398cb195f8efc24e636c5feb0602a418cebead0659e2becd44ae1f835"])]⟩
  ], 8⟩

def demoSM1 : ShardManager :=
  ⟨[
   ⟨[],
    [],
    [],
    []⟩,
   ⟨[],
    [],
    [],
    []⟩,
   ⟨[],
    [],
    [],
    []⟩,
   ⟨[("7183ac0af76453850eed3733742ade9eef40d021f9807b00c862435576a6483c",
       .node ⟨"7183ac0af76453850eed3733742ade9eef40d021f9807b00c862435576a6483c", .conceptNode, "Animal", ⟨1, 1⟩, ⟨0, 0, 0⟩, "demo"⟩),
      ("8cf2df59a7889f69d90a0a7da85847d1bec9c752cadfe8a8e427df300ff4ad59",
       .link ⟨"8cf2df59a7889f69d90a0a7da85847d1bec9c752cadfe8a8e427df300ff4ad59", .inheritanceLink, "inheritance", ⟨1, 1⟩, ⟨0, 0, 0⟩, "demo"⟩
         [.node ⟨"50429b0398cb195f8efc24e636c5feb0602a418cebead0659e2becd44ae1f835", .conceptNode, "Mammal", ⟨1, 1⟩, ⟨0, 0, 0⟩, "demo"⟩,
          .node ⟨"7183ac0af76453850eed3733742ade9eef40d021f9807b00c862435576a6483c", .conceptNode, "Animal", ⟨1, 1⟩, ⟨0, 0, 0⟩, "demo"⟩])],
    [("demo", ["7183ac0af76453850eed3733742ade9eef40d021f9807b00c862435576a6483c", "8cf2df59a7889f69d90a0a7da85847d1bec9c752cadfe8a8e427df300ff4ad59"])],
    [(.conceptNode, ["7183ac0af76453850eed3733742ade9eef40d021f9807b00c862435576a6483c"]), (.inheritanceLink, ["8cf2df59a7889f69d90a0a7da85847d1bec9c752cadfe8a8e427df300ff4ad59"])],
    [("Animal", ["7183ac0af76453850eed3733742ade9eef40d021f9807b00c862435576a6483c"]), ("inheritance", ["8cf2df59a7889f69d90a0a7da85847d1bec9c752cadfe8a8e427df300ff4ad59"])]⟩,
   ⟨[("591cb98a778517d9c6aefd2b5213c71198e7b601bb2f011f90d9571271759b0d",
       .node ⟨"591cb98a778517d9c6aefd2b5213c71198e7b601bb2f011f90d9571271759b0d", .conceptNode, "Cat", ⟨1, 1⟩, ⟨0, 0, 0⟩, "demo"⟩)],
    [("demo", ["591cb98a778517d9c6aefd2b5213c71198e7b601bb2f011f90d9571271759b0d"])],
    [(.conceptNode, ["591cb98a778517d9c6aefd2b5213c71198e7b601bb2f011f90d9571271759b0d"])],
    [("Cat", ["591cb98a778517d9c6aefd2b5213c71198e7b601bb2f011f90d9571271759b0d"])]⟩,
   ⟨[],
    [],
    [],
    []⟩,
   ⟨[("292a579e71647b3f5c8cb3407837e56941ee3e03d378e5159b7ca8b8a24086b7",
       .link ⟨"292a579e71647b3f5c8cb3407837e56941ee3e03d378e5159b7ca8b8a24086b7", .inheritanceLink, "inheritance", ⟨1, 1⟩, ⟨0, 0, 0⟩, "demo"⟩
         [.node ⟨"591cb98a778517d9c6aefd2b5213c71198e7b601bb2f011f90d9571271759b0d", .conceptNode, "Cat", ⟨1, 1⟩, ⟨0, 0, 0⟩, "demo"⟩,
          .node ⟨"50429b0398cb195f8efc24e636c5feb0602a418cebead0659e2becd44ae1f835", .conceptNode, "Mammal", ⟨1, 1⟩, ⟨0, 0, 0⟩, "demo"⟩]),
      ("5469c4ffb252db45f490d3fb706e5ef32263bf43f8a1db3aafda9ef3147d5211",
       .link ⟨"5469c4ffb252db45f490d3fb706e5ef32263bf43f8a1db3aafda9ef3147d5211", .inheritanceLink, "inheritance", ⟨1, 9 / 10⟩, ⟨0, 0, 0⟩, "demo"⟩
         [.node ⟨"591cb98a778517d9c6aefd2b5213c71198e7b601bb2f011f90d9571271759b0d", .conceptNode, "Cat", ⟨1, 1⟩, ⟨0, 0, 0⟩, "demo"⟩,
          .node ⟨"7183ac0af76453850eed3733742ade9eef40d021f9807b00c862435576a6483c", .conceptNode, "Animal", ⟨1, 1⟩, ⟨0, 0, 0⟩, "demo"⟩])],
    [("demo", ["292a579e71647b3f5c8cb3407837e56941ee3e03d378e5159b7ca8b8a24086b7", "5469c4ffb252db45f490d3fb706e5ef32263bf43f8a1db3aafda9ef3147d5211"])],
    [(.inheritanceLink, ["292a579e71647b3f5c8cb3407837e56941ee3e03d378e5159b7ca8b8a24086b7", "5469c4ffb252db45f490d3fb706e5ef32263bf43f8a1db3aafda9ef3147d5211"])],
    [("inheritance", ["292a579e71647b3f5c8cb3407837e56941ee3e03d378e5159b7ca8b8a24086b7", "5469c4ffb252db45f490d3fb706e5ef32263bf43f8a1db3aafda9ef3147d5211"])]⟩,
   ⟨[("50429b0398cb195f8efc24e636c5feb0602a418cebead0659e2becd44ae1f835",
       .node ⟨"50429b0398cb195f8efc24e636c5feb0602a418cebead0659e2becd44ae1f835", .conceptNode, "Mammal", ⟨1, 1⟩, ⟨0, 0, 0⟩, "demo"⟩)],
    [("demo", ["50429b0398cb195f8efc24e636c5feb0602a418cebead0659e2becd44ae1f835"])],
    [(.conceptNode, ["50429b0398cb195f8efc24e636c5feb0602a418cebead0659e2becd44ae1f835"])],
    [("Mammal", ["50429b0398cb195f8efc24e636c5feb0602a418cebead0659e2becd44ae1f835"])]⟩
  ], 8⟩

def demoSM2 : ShardManager :=
  ⟨[
   ⟨[("bf89bbc3dd45e7967cc0f549c96f52500e59094d80c4ff83cc77dca53541f12e",
       .link ⟨"bf89bbc3dd45e7967cc0f549c96f52500e59094d80c4ff83cc77dca53541f12e", .similarityLink, "similarity", ⟨7 / 10, 4 / 5⟩, ⟨0, 0, 0⟩, "demo"⟩
         [.node ⟨"50429b0398cb195f8efc24e636c5feb0602a418cebead0659e2becd44ae1f835", .conceptNode, "Mammal", ⟨1, 1⟩, ⟨0, 0, 0⟩, "demo"⟩,
          .node ⟨"591cb98a778517d9c6aefd2b5213c71198e7b601bb2f011f90d9571271759b0d", .conceptNode, "Cat", ⟨1, 1⟩, ⟨0, 0, 0⟩, "demo"⟩])],
    [("demo", ["bf89bbc3dd45e7967cc0f549c96f52500e59094d80c4ff83cc77dca53541f12e"])],
    [(.similarityLink, ["bf89bbc3dd45e7967cc0f549c96f52500e59094d80c4ff83cc77dca53541f12e"])],
    [("similarity", ["bf89bbc3dd45e7967cc0f549c96f52500e59094d80c4ff83cc77dca53541f12e"])]⟩,
   ⟨[],
    [],
    [],
    []⟩,
   ⟨[],
    [],
    [],
    []⟩,
   ⟨[("7183ac0af76453850eed3733742ade9eef40d021f9807b00c862435576a6483c",
       .node ⟨"7183ac0af76453850eed3733742ade9eef40d021f9807b00c862435576a6483c", .conceptNode, "Animal", ⟨1, 1⟩, ⟨0, 0, 0⟩, "demo"⟩),
      ("8cf2df59a7889f69d90a0a7da85847d1bec9c752cadfe8a8e427df300ff4ad59",
       .link ⟨"8cf2df59a7889f69d90a0a7da85847d1bec9c752cadfe8a8e427df300ff4ad59", .inheritanceLink, "inheritance", ⟨1, 1⟩, ⟨0, 0, 0⟩, "demo"⟩
         [.node ⟨"50429b0398cb195f8efc24e636c5feb0602a418cebead0659e2becd44ae1f835", .conceptNode, "Mammal", ⟨1, 1⟩, ⟨0, 0, 0⟩, "demo"⟩,
          .node ⟨"7183ac0af76453850eed3733742ade9eef40d021f9807b00c862435576a6483c", .conceptNode, "Animal", ⟨1, 1⟩, ⟨0, 0, 0⟩, "demo"⟩])],
    [("demo", ["7183ac0af76453850eed3733742ade9eef40d021f9807b00c862435576a6483c", "8cf2df59a7889f69d90a0a7da85847d1bec9c752cadfe8a8e427df300ff4ad59"])],
    [(.conceptNode, ["7183ac0af76453850eed3733742ade9eef40d021f9807b00c862435576a6483c"]), (.inheritanceLink, ["8cf2df59a7889f69d90a0a7da85847d1bec9c752cadfe8a8e427df300ff4ad59"])],
    [("Animal", ["7183ac0af76453850eed3733742ade9eef40d021f9807b00c862435576a6483c"]), ("inheritance", ["8cf2df59a7889f69d90a0a7da85847d1bec9c752cadfe8a8e427df300ff4ad59"])]⟩,
   ⟨[("591cb98a778517d9c6aefd2b5213c71198e7b601bb2f011f90d9571271759b0d",
       .node ⟨"591cb98a778517d9c6aefd2b5213c71198e7b601bb2f011f90d9571271759b0d", .conceptNode, "Cat", ⟨1, 1⟩, ⟨0, 0, 0⟩, "demo"⟩)],
    [("demo", ["591cb98a778517d9c6aefd2b5213c71198e7b601bb2f011f90d9571271759b0d"])],
    [(.conceptNode, ["591cb98a778517d9c6aefd2b5213c71198e7b601bb2f011f90d9571271759b0d"])],
    [("Cat", ["591cb98a778517d9c6aefd2b5213c71198e7b601bb2f011f90d9571271759b0d"])]⟩,
   ⟨[],
    [],
    [],
    []⟩,
   ⟨[("292a579e71647b3f5c8cb3407837e56941ee3e03d378e5159b7ca8b8a24086b7",
       .link ⟨"292a579e71647b3f5c8cb3407837e56941ee3e03d378e5159b7ca8b8a24086b7", .inheritanceLink, "inheritance", ⟨1, 1⟩, ⟨0, 0, 0⟩, "demo"⟩
         [.node ⟨"591cb98a778517d9c6aefd2b5213c71198e7b601bb2f011f90d9571271759b0d", .conceptNode, "Cat", ⟨1, 1⟩, ⟨0, 0, 0⟩, "demo"⟩,
          .node ⟨"50429b0398cb195f8efc24e636c5feb0602a418cebead0659e2becd44ae1f835", .conceptNode, "Mammal", ⟨1, 1⟩, ⟨0, 0, 0⟩, "demo"⟩]),
      ("5469c4ffb252db45f490d3fb706e5ef32263bf43f8a1db3aafda9ef3147d5211",
       .link ⟨"5469c4ffb252db45f490d3fb706e5ef32263bf43f8a1db3aafda9ef3147d5211", .inheritanceLink, "inheritance", ⟨1, 9 / 10⟩, ⟨0, 0, 0⟩, "demo"⟩
         [.node ⟨"591cb98a778517d9c6aefd2b5213c71198e7b601bb2f011f90d9571271759b0d", .conceptNode, "Cat", ⟨1, 1⟩, ⟨0, 0, 0⟩, "demo"⟩,
          .node ⟨"7183ac0af76453850eed3733742ade9eef40d021f9807b00c862435576a6483c", .conceptNode, "Animal", ⟨1, 1⟩, ⟨0, 0, 0⟩, "demo"⟩])],
    [("demo", ["292a579e71647b3f5c8cb3407837e56941ee3e03d378e5159b7ca8b8a24086b7", "5469c4ffb252db45f490d3fb706e5ef32263bf43f8a1db3aafda9ef3147d5211"])],
    [(.inheritanceLink, ["292a579e71647b3f5c8cb3407837e56941ee3e03d378e5159b7ca8b8a24086b7", "5469c4ffb252db45f490d3fb706e5ef32263bf43f8a1db3aafda9ef3147d5211"])],
    [("inheritance", ["292a579e71647b3f5c8cb3407837e56941ee3e03d378e5159b7ca8b8a24086b7", "5469c4ffb252db45f490d3fb706e5ef32263bf43f8a1db3aafda9ef3147d5211"])]⟩,
   ⟨[("50429b0398cb195f8efc24e636c5feb0602a418cebead0659e2becd44ae1f835",
       .node ⟨"50429b0398cb195f8efc24e636c5feb0602a418cebead0659e2becd44ae1f835", .conceptNode, "Mammal", ⟨1, 1⟩, ⟨0, 0, 0⟩, "demo"⟩)],
    [("demo", ["50429b0398cb195f8efc24e636c5feb0602a418cebead0659e2becd44ae1f835"])],
    [(.conceptNode, ["50429b0398cb195f8efc24e636c5feb0602a418cebead0659e2becd44ae1f835"])],
    [("Mammal", ["50429b0398cb195f8efc24e636c5feb0602a418cebead0659e2becd44ae1f835"])]⟩
  ], 8⟩


/-- One productive iteration unfolds the fixpoint loop. -/
theorem runInferenceLoop_step (rules : List Rule) (tenantID : String)
    (fuel : Nat) (sm sm' : ShardManager) (added : List Atom)
    (hq : (smQueryAtoms sm tenantID none).isEmpty = false)
    (hr : ((rules.filter (fun r =>
      r.canApply (smQueryAtoms sm tenantID none))).isEmpty) = false)
    (hstep : inferStep rules tenantID sm = (added, sm'))
    (hne : added.isEmpty = false) :
    runInferenceLoop rules tenantID false (fuel + 1) sm =
      (added ++ (runInferenceLoop rules tenantID false fuel sm').1,
       (runInferenceLoop rules tenantID false fuel sm').2.1,
       (runInferenceLoop rules tenantID false fuel sm').2.2.1,
       (runInferenceLoop rules tenantID false fuel sm').2.2.2 + 1) := by
  simp only [runInferenceLoop, hq, hr, hstep, hne, Bool.false_eq_true,
    if_false, ite_false]

/-- An unproductive iteration ends the fixpoint loop. -/
theorem runInferenceLoop_stop (rules : List Rule) (tenantID : String)
    (fuel : Nat) (sm sm' : ShardManager)
    (hq : (smQueryAtoms sm tenantID none).isEmpty = false)
    (hr : ((rules.filter (fun r =>
      r.canApply (smQueryAtoms sm tenantID none))).isEmpty) = false)
    (hstep : inferStep rules tenantID sm = ([], sm')) :
    runInferenceLoop rules tenantID false (fuel + 1) sm =
      ([], sm', none, 1) := by
  simp only [runInferenceLoop, hq, hr, hstep, Bool.false_eq_true,
    if_false, ite_false]
  simp

set_option maxRecDepth 1000000 in
/-- The façade setup produces exactly `demoSM0`. -/
theorem demoSM_lit : demoSM = demoSM0 := by with_unfolding_all decide

set_option maxRecDepth 1000000 in
/-- Iteration 1: deduction derives Cat→Animal; induction's guard (≥ 3
InheritanceLinks) is still closed. -/
theorem demoStep1 : inferStep defaultRules "demo" demoSM0 =
    ([catAnimalLink], demoSM1) := by with_unfolding_all decide

set_option maxRecDepth 1000000 in
/-- Iteration 2: deduction re-derives only duplicates, induction derives
the Mammal/Cat SimilarityLink from the shared target Animal. -/
theorem demoStep2 : inferStep defaultRules "demo" demoSM1 =
    ([mammalCatSimLink], demoSM2) := by with_unfolding_all decide

set_option maxRecDepth 1000000 in
/-- Iteration 3: everything re-derived already exists — the fixpoint. -/
theorem demoStep3 : inferStep defaultRules "demo" demoSM2 =
    ([], demoSM2) := by with_unfolding_all decide

set_option maxRecDepth 1000000 in
theorem demoCond0 :
    (smQueryAtoms demoSM0 "demo" none).isEmpty = false ∧
    ((defaultRules.filter (fun r =>
      r.canApply (smQueryAtoms demoSM0 "demo" none))).isEmpty) = false := by
  refine ⟨by with_unfolding_all decide, by with_unfolding_all decide⟩

set_option maxRecDepth 1000000 in
theorem demoCond1 :
    (smQueryAtoms demoSM1 "demo" none).isEmpty = false ∧
    ((defaultRules.filter (fun r =>
      r.canApply (smQueryAtoms demoSM1 "demo" none))).isEmpty) = false := by
  refine ⟨by with_unfolding_all decide, by with_unfolding_all decide⟩

set_option maxRecDepth 1000000 in
theorem demoCond2 :
    (smQueryAtoms demoSM2 "demo" none).isEmpty = false ∧
    ((defaultRules.filter (fun r =>
      r.canApply (smQueryAtoms demoSM2 "demo" none))).isEmpty) = false := by
  refine ⟨by with_unfolding_all decide, by with_unfolding_all decide⟩

/-- The full first run: Cat→Animal, then the SimilarityLink, then the
fixpoint break, in three loop iterations. -/
theorem demoLoop_eq :
    runInferenceLoop defaultRules "demo" false 5 demoSM0 =
      ([catAnimalLink, mammalCatSimLink], demoSM2, none, 3) := by
  rw [show (5 : Nat) = 4 + 1 from rfl,
    runInferenceLoop_step defaultRules "demo" 4 demoSM0 demoSM1
      [catAnimalLink] demoCond0.1 demoCond0.2 demoStep1 (by decide),
    show (4 : Nat) = 3 + 1 from rfl,
    runInferenceLoop_step defaultRules "demo" 3 demoSM1 demoSM2
      [mammalCatSimLink] demoCond1.1 demoCond1.2 demoStep2 (by decide),
    show (3 : Nat) = 2 + 1 from rfl,
    runInferenceLoop_stop defaultRules "demo" 2 demoSM2 demoSM2
      demoCond2.1 demoCond2.2 demoStep3]
  rfl

theorem demoRun_eq :
    demoRun = ([catAnimalLink, mammalCatSimLink], demoSM2, none) := by
  unfold demoRun runInference
  rw [demoSM_lit, demoLoop_eq]

theorem demoRerun_eq : demoRerun = ([], demoSM2, none) := by
  unfold demoRerun runInference
  rw [demoRun_eq, show (5 : Nat) = 4 + 1 from rfl,
    runInferenceLoop_stop defaultRules "demo" 4 demoSM2 demoSM2
      demoCond2.1 demoCond2.2 demoStep3]

/-- C1 counterexample.  On the demo tenant (Cat, Mammal, Animal,
Cat→Mammal, Mammal→Animal), `RunInference` with cap 5 returns TWO new
atoms, not one: after the first iteration derives Cat→Animal, the tenant
holds three InheritanceLinks, so the induction rule's guard (≥ 3) opens
and the second iteration derives a SimilarityLink between Mammal and Cat
(both now inherit from Animal). -/
theorem transitive_deduction_counterexample :
    demoRun.1.length = 2 ∧ (2 : Nat) ≠ 1 := by
  rw [demoRun_eq]
  exact ⟨rfl, by decide⟩

/-- C1 (amended): on the demo tenant, `RunInference` with cap 5 returns
exactly two new atoms, in order: the InheritanceLink Cat→Animal with
truth (1.0, 0.9), then the SimilarityLink between Mammal and Cat with
truth (0.7, 0.8); the run reports no error, and an immediately following
`RunInference` returns zero new atoms and no error. -/
theorem transitive_deduction_scenario :
    demoRun.1 = [catAnimalLink, mammalCatSimLink] ∧
    demoRun.2.2 = none ∧
    catAnimalLink.getTruthValue = ⟨1, 9 / 10⟩ ∧
    mammalCatSimLink.getTruthValue = ⟨7 / 10, 4 / 5⟩ ∧
    demoRerun.1 = [] ∧
    demoRerun.2.2 = none := by
  rw [demoRun_eq, demoRerun_eq]
  exact ⟨rfl, rfl, rfl, rfl, rfl, rfl⟩

end Erebus
